import Mathlib

/-!
Verification of the OpenSimplex noise implementation.

Shallow embedding of the C++ OpenSimplex noise sources
(`OpenSimplexNoise.hh`, legacy 3D-only class, and the templated
2D/3D/4D header in the `OSN` namespace) together with proofs about the
permutation-table construction, the gradient extrapolation primitives
and the lattice evaluators.

Machine integers (`long long`) are modelled as mathematical integers
reduced modulo `2^64` into the signed range (two's-complement
wrap-around); C's truncated `%` is `Int.tmod`; the bitwise masks
`& 0xFF`, `& 0x0E`, `& 0xFC` that the code applies to two's-complement
values are modelled through the low-byte residue (see `mask255`).
Floating-point values are idealised as exact ordered-field arithmetic
(`ℚ` where every constant of the source is rational, `ℝ` where the
source uses `sqrt`-derived constants).
-/

namespace OSN

/-- Reduction of an integer into the signed 64-bit range
`[-2^63, 2^63)`: the value a C `long long` holds after two's-complement
wrap-around. -/
def wrap64 (n : ℤ) : ℤ := (n + 2 ^ 63) % 2 ^ 64 - 2 ^ 63

/-- `NoiseBase::LCG_STEP` (templated header, C++11 path):
`x = x * 6364136223846793005 + 1442695040888963407` on `long long`. -/
def LCG_STEP (x : ℤ) : ℤ :=
  wrap64 (x * 6364136223846793005 + 1442695040888963407)

/-- The pseudo-random index drawn in the seeded constructor, exactly as
the code computes it: `r = (int)((seed + 31) % (i + 1)); if (r < 0)
r += (i + 1);` where `seed + 31` is `long long` arithmetic and `%` is
C's truncated remainder. -/
def drawR (seed : ℤ) (i : ℕ) : ℤ :=
  let r := Int.tmod (wrap64 (seed + 31)) (i + 1)
  if r < 0 then r + (i + 1) else r

/-- The same draw, written the way the specification describes it: a
pseudo-random integer in `[0, i]`, i.e. the mathematical (Euclidean)
remainder of the generator state by `i + 1`. -/
def drawSpec (seed : ℤ) (i : ℕ) : ℤ := wrap64 (seed + 31) % (i + 1)

/-- The code's draw as a natural number (the C `int r` is used as an
array index after the sign correction). -/
def drawRN (seed : ℤ) (i : ℕ) : ℕ := (drawR seed i).toNat

/-- The specification's draw as a natural number. -/
def drawSpecN (seed : ℤ) (i : ℕ) : ℕ := (drawSpec seed i).toNat

/-- The Fisher–Yates-style loop of the seeded constructor
(`NoiseBase::NoiseBase(long long)`), processing indices `i, i-1, …, 0`:
at each index one `LCG_STEP` advances the state, an index `r` is drawn,
`perm[i] = source[r]` and `source[r] = source[i]`.  Parameterised by the
draw function so that the code draw and the specification draw can be
compared. -/
def shuffleAux (draw : ℤ → ℕ → ℕ) :
    ℕ → ℤ → (ℕ → ℕ) → (ℕ → ℕ) → (ℕ → ℕ)
  | 0, x, source, perm =>
      let x' := LCG_STEP x
      let r := draw x' 0
      Function.update perm 0 (source r)
  | (j + 1), x, source, perm =>
      let x' := LCG_STEP x
      let r := draw x' (j + 1)
      shuffleAux draw j x'
        (Function.update source r (source (j + 1)))
        (Function.update perm (j + 1) (source r))

/-- The permutation table built by the seeded constructor
`NoiseBase::NoiseBase(long long seed)`: `source[i] = i` for
`i < 256`, three initial `LCG_STEP`s, then the shuffle from index 255
down to 0 using the code's draw. -/
def buildPerm (seed : ℤ) : ℕ → ℕ :=
  shuffleAux drawRN 255 (LCG_STEP (LCG_STEP (LCG_STEP seed))) id (fun _ => 0)

/-- The permutation table as the specification words it: the same
identity start, the same three initial generator advances and the same
shuffle, but drawing `r ∈ [0, i]` as a Euclidean remainder. -/
def buildPermSpec (seed : ℤ) : ℕ → ℕ :=
  shuffleAux drawSpecN 255 (LCG_STEP (LCG_STEP (LCG_STEP seed))) id (fun _ => 0)

/-- The copying constructor `NoiseBase::NoiseBase(const int * p)`:
`perm[i] = p[i]` for every `i < 256`, with no validation and no failure
path. -/
def NoiseBase.ofTable (p : Fin 256 → ℤ) : Fin 256 → ℤ := fun i => p i

/-- The C expression `v & 0xFF` applied to a two's-complement integer:
the non-negative residue of `v` modulo 256, packaged as an in-range
index. -/
def mask255 (v : ℤ) : Fin 256 :=
  ⟨(v % 256).toNat, by
    have h1 : 0 ≤ v % 256 := Int.emod_nonneg v (by norm_num)
    have h2 : v % 256 < 256 := Int.emod_lt_of_pos v (by norm_num)
    omega⟩

/-- `Noise<2,T>::gradients`: the flat 2D gradient array (octagon
directions, gradient set 2014-10-06). -/
def gradients2 : List ℤ :=
  [5, 2,   2, 5,  -5, 2,  -2, 5,
   5, -2,  2, -5, -5, -2, -2, -5]

/-- `Noise<3,T>::gradients`: the flat 3D gradient array of the templated
header (rhombicuboctahedron directions, gradient set 2014-10-06). -/
def gradients3 : List ℤ :=
  [-11, 4, 4,  -4, 11, 4,  -4, 4, 11,   11, 4, 4,   4, 11, 4,   4, 4, 11,
   -11, -4, 4, -4, -11, 4, -4, -4, 11,  11, -4, 4,  4, -11, 4,  4, -4, 11,
   -11, 4, -4, -4, 11, -4, -4, 4, -11,  11, 4, -4,  4, 11, -4,  4, 4, -11,
   -11, -4, -4, -4, -11, -4, -4, -4, -11, 11, -4, -4, 4, -11, -4, 4, -4, -11]

/-- `OpenSimplexNoise::gradients3D`: the flat 3D gradient array of the
legacy header (new gradient set 2014-09-19). -/
def gradients3D : List ℤ :=
  [0, 3, 2,   0, 2, 3,   3, 0, 2,   2, 0, 3,   3, 2, 0,   2, 3, 0,
   0, -3, 2,  0, 2, -3,  -3, 0, 2,  2, 0, -3,  -3, 2, 0,  2, -3, 0,
   0, 3, -2,  0, -2, 3,  3, 0, -2,  -2, 0, 3,  3, -2, 0,  -2, 3, 0,
   0, -3, -2, 0, -2, -3, -3, 0, -2, -2, 0, -3, -3, -2, 0, -2, -3, 0]

/-- `Noise<4,T>::gradients`: the flat 4D gradient array (gradient set
2014-10-06), 64 vectors of 4 components. -/
def gradients4 : List ℤ :=
  [3, 1, 1, 1,   1, 3, 1, 1,   1, 1, 3, 1,   1, 1, 1, 3,
   -3, 1, 1, 1,  -1, 3, 1, 1,  -1, 1, 3, 1,  -1, 1, 1, 3,
   3, -1, 1, 1,  1, -3, 1, 1,  1, -1, 3, 1,  1, -1, 1, 3,
   -3, -1, 1, 1, -1, -3, 1, 1, -1, -1, 3, 1, -1, -1, 1, 3,
   3, 1, -1, 1,  1, 3, -1, 1,  1, 1, -3, 1,  1, 1, -1, 3,
   -3, 1, -1, 1, -1, 3, -1, 1, -1, 1, -3, 1, -1, 1, -1, 3,
   3, -1, -1, 1, 1, -3, -1, 1, 1, -1, -3, 1, 1, -1, -1, 3,
   -3, -1, -1, 1, -1, -3, -1, 1, -1, -1, -3, 1, -1, -1, -1, 3,
   3, 1, 1, -1,  1, 3, 1, -1,  1, 1, 3, -1,  1, 1, 1, -3,
   -3, 1, 1, -1, -1, 3, 1, -1, -1, 1, 3, -1, -1, 1, 1, -3,
   3, -1, 1, -1, 1, -3, 1, -1, 1, -1, 3, -1, 1, -1, 1, -3,
   -3, -1, 1, -1, -1, -3, 1, -1, -1, -1, 3, -1, -1, -1, 1, -3,
   3, 1, -1, -1, 1, 3, -1, -1, 1, 1, -3, -1, 1, 1, -1, -3,
   -3, 1, -1, -1, -1, 3, -1, -1, -1, 1, -3, -1, -1, 1, -1, -3,
   3, -1, -1, -1, 1, -3, -1, -1, 1, -1, -3, -1, 1, -1, -1, -3,
   -3, -1, -1, -1, -1, -3, -1, -1, -1, -1, -3, -1, -1, -1, -1, -3]

/-- The 2D gradient array read as the eight octagon direction vectors
(used to state the specification's view of gradient selection). -/
def gradients2Vectors : List (ℤ × ℤ) :=
  [(5, 2), (2, 5), (-5, 2), (-2, 5), (5, -2), (2, -5), (-5, -2), (-2, -5)]

/-- The templated header's 3D gradient array read as 24 direction
vectors. -/
def gradients3Vectors : List (ℤ × ℤ × ℤ) :=
  [(-11, 4, 4), (-4, 11, 4), (-4, 4, 11), (11, 4, 4), (4, 11, 4), (4, 4, 11),
   (-11, -4, 4), (-4, -11, 4), (-4, -4, 11), (11, -4, 4), (4, -11, 4), (4, -4, 11),
   (-11, 4, -4), (-4, 11, -4), (-4, 4, -11), (11, 4, -4), (4, 11, -4), (4, 4, -11),
   (-11, -4, -4), (-4, -11, -4), (-4, -4, -11), (11, -4, -4), (4, -11, -4), (4, -4, -11)]

/-- The 4D gradient array read as 64 direction vectors. -/
def gradients4Vectors : List (ℤ × ℤ × ℤ × ℤ) :=
  (List.range 64).map (fun k =>
    (gradients4.getD (4 * k) 0, gradients4.getD (4 * k + 1) 0,
     gradients4.getD (4 * k + 2) 0, gradients4.getD (4 * k + 3) 0))

/-- The gradient-array index `Noise<2,T>::extrapolate` computes:
`perm[(perm[xsb & 0xFF] + ysb) & 0xFF] & 0x0E`. -/
def Noise2.gradIndex (perm : Fin 256 → ℤ) (xsb ysb : ℤ) : ℕ :=
  (mask255 (perm (mask255 (perm (mask255 xsb) + ysb)))).val &&& 0x0E

/-- `Noise<2,T>::extrapolate`: fold the two lattice coordinates through
`perm`, mask the final table value with `0x0E` and take the dot product
of the selected flat-array gradient pair with the offset vector. -/
def Noise2.extrapolate {K : Type} [LinearOrderedField K]
    (perm : Fin 256 → ℤ) (xsb ysb : ℤ) (dx dy : K) : K :=
  let index := Noise2.gradIndex perm xsb ysb
  (gradients2.getD index 0 : K) * dx + (gradients2.getD (index + 1) 0 : K) * dy

/-- The specification's view of the 2D extrapolation: the same
left-to-right fold produces a hash, the hash masked with `0x0E` names
one of the eight gradient vectors, and the result is that vector dotted
with the offset. -/
def Noise2.extrapolateSpec {K : Type} [LinearOrderedField K]
    (perm : Fin 256 → ℤ) (xsb ysb : ℤ) (dx dy : K) : K :=
  let h : ℕ := (mask255 (perm (mask255 (perm (mask255 xsb) + ysb)))).val
  let g := gradients2Vectors.getD ((h &&& 0x0E) / 2) (0, 0)
  (g.1 : K) * dx + (g.2 : K) * dy

/-- The per-instance state of `Noise<3,T>`: the permutation table and the
precomputed gradient-offset table. -/
structure Noise3 where
  perm : Fin 256 → ℤ
  permGradIndex : Fin 256 → ℤ

/-- `Noise<3,T>::Noise(long long seed)`: the shared LCG shuffle fills
`perm`, and in the same loop `permGradIndex[i] = (perm[i] % (72/3)) * 3`
(C truncated `%`; `perm[i]` is final once written, so the in-loop
assignment equals this per-index formula). -/
def Noise3.ofSeed (seed : ℤ) : Noise3 where
  perm := fun i => (buildPerm seed i : ℤ)
  permGradIndex := fun i => Int.tmod (buildPerm seed i : ℤ) 24 * 3

/-- `Noise<3,T>::Noise(const int * p)`: copy the table verbatim and set
`permGradIndex[i] = (perm[i] % (72/3)) * 3` (C truncated `%`). -/
def Noise3.ofTable (p : Fin 256 → ℤ) : Noise3 where
  perm := fun i => p i
  permGradIndex := fun i => Int.tmod (p i) 24 * 3

/-- The gradient-array index `Noise<3,T>::extrapolate` computes: the
value of `permGradIndex` at the folded hash. -/
def Noise3.gradIndex (inst : Noise3) (xsb ysb zsb : ℤ) : ℤ :=
  inst.permGradIndex
    (mask255 (inst.perm (mask255 (inst.perm (mask255 xsb) + ysb)) + zsb))

/-- `Noise<3,T>::extrapolate`: index the flat gradient array at the
precomputed offset and dot with the offset vector.  (An out-of-range
index — possible only for invalid tables — reads the default value 0
here; in C it is an out-of-bounds access.) -/
def Noise3.extrapolate (inst : Noise3) (xsb ysb zsb : ℤ) (dx dy dz : ℚ) : ℚ :=
  let index := inst.gradIndex xsb ysb zsb
  (gradients3.getD index.toNat 0 : ℚ) * dx +
    (gradients3.getD (index.toNat + 1) 0 : ℚ) * dy +
    (gradients3.getD (index.toNat + 2) 0 : ℚ) * dz

/-- The specification's view of the 3D extrapolation: the folded hash
selects table entry `perm[h]`, whose residue mod 24 names one of the 24
gradient vectors; the result is that vector dotted with the offset. -/
def Noise3.extrapolateSpec (perm : Fin 256 → ℤ) (xsb ysb zsb : ℤ)
    (dx dy dz : ℚ) : ℚ :=
  let h := mask255 (perm (mask255 (perm (mask255 xsb) + ysb)) + zsb)
  let g := gradients3Vectors.getD (perm h % 24).toNat (0, 0, 0)
  (g.1 : ℚ) * dx + (g.2.1 : ℚ) * dy + (g.2.2 : ℚ) * dz

/-- The gradient-array index `Noise<4,T>::extrapolate` computes. -/
def Noise4.gradIndex (perm : Fin 256 → ℤ) (xsb ysb zsb wsb : ℤ) : ℕ :=
  (mask255 (perm (mask255 (perm (mask255 (perm (mask255 (perm (mask255 xsb)
    + ysb)) + zsb)) + wsb)))).val &&& 0xFC

/-- `Noise<4,T>::extrapolate`. -/
def Noise4.extrapolate {K : Type} [LinearOrderedField K]
    (perm : Fin 256 → ℤ) (xsb ysb zsb wsb : ℤ) (dx dy dz dw : K) : K :=
  let index := Noise4.gradIndex perm xsb ysb zsb wsb
  (gradients4.getD index 0 : K) * dx + (gradients4.getD (index + 1) 0 : K) * dy +
    (gradients4.getD (index + 2) 0 : K) * dz +
    (gradients4.getD (index + 3) 0 : K) * dw

/-- The specification's view of the 4D extrapolation: mask the hash with
`0xFC` to name one of the 64 gradient vectors and dot it with the
offset. -/
def Noise4.extrapolateSpec {K : Type} [LinearOrderedField K]
    (perm : Fin 256 → ℤ) (xsb ysb zsb wsb : ℤ) (dx dy dz dw : K) : K :=
  let h : ℕ := (mask255 (perm (mask255 (perm (mask255 (perm (mask255 (perm
    (mask255 xsb) + ysb)) + zsb)) + wsb)))).val
  let g := gradients4Vectors.getD ((h &&& 0xFC) / 4) (0, 0, 0, 0)
  (g.1 : K) * dx + (g.2.1 : K) * dy + (g.2.2.1 : K) * dz + (g.2.2.2 : K) * dw

/-- The per-instance state of the legacy `OpenSimplexNoise` class. -/
structure OpenSimplexNoise where
  perm : Fin 256 → ℤ
  permGradIndex3D : Fin 256 → ℤ

/-- `OpenSimplexNoise::OpenSimplexNoise(const int * p)`: copy the
caller's table verbatim, then set
`permGradIndex3D[i] = (perm[i] % (72/3)) * 3` (C truncated `%`).  No
validation is performed and construction always succeeds. -/
def OpenSimplexNoise.ofTable (p : Fin 256 → ℤ) : OpenSimplexNoise where
  perm := fun i => p i
  permGradIndex3D := fun i => Int.tmod (p i) 24 * 3

/-- The gradient-array index `OpenSimplexNoise::extrapolate` computes. -/
def OpenSimplexNoise.gradIndex (inst : OpenSimplexNoise)
    (xsb ysb zsb : ℤ) : ℤ :=
  inst.permGradIndex3D
    (mask255 (inst.perm (mask255 (inst.perm (mask255 xsb) + ysb)) + zsb))

/-- `OpenSimplexNoise::extrapolate` (legacy header, `gradients3D`
set). -/
def OpenSimplexNoise.extrapolate (inst : OpenSimplexNoise)
    (xsb ysb zsb : ℤ) (dx dy dz : ℚ) : ℚ :=
  let index := inst.gradIndex xsb ysb zsb
  (gradients3D.getD index.toNat 0 : ℚ) * dx +
    (gradients3D.getD (index.toNat + 1) 0 : ℚ) * dy +
    (gradients3D.getD (index.toNat + 2) 0 : ℚ) * dz

/-- A candidate lattice vertex of the 2D evaluator: its lattice
coordinates and the query point's offset from it in unskewed space. -/
structure Cand2 (K : Type) where
  xsv : ℤ
  ysv : ℤ
  dx : K
  dy : K

/-- The branch block of `Noise<2,T>::eval` after its prelude: given the
lattice origin `(xsb, ysb)`, the stretched fractional parts
`(xins, yins)` and the offset `(dx0, dy0)` from the unskewed origin,
produce the candidate vertices in the order the code accumulates their
contributions: the `(1,0)` and `(0,1)` corners, then the home corner
(`(0,0)` or `(1,1)` depending on the triangle), then the extra vertex
chosen by the tie-break branch. -/
def candidates2Core {K : Type} [LinearOrderedField K] (SQUISH_CONSTANT : K)
    (xsb ysb : ℤ) (xins yins dx0 dy0 : K) : List (Cand2 K) :=
  let c10 : Cand2 K := ⟨xsb + 1, ysb, dx0 - 1 - SQUISH_CONSTANT, dy0 - SQUISH_CONSTANT⟩
  let c01 : Cand2 K := ⟨xsb, ysb + 1, dx0 - SQUISH_CONSTANT, dy0 - 1 - SQUISH_CONSTANT⟩
  if xins + yins ≤ 1 then
    let zins := 1 - (xins + yins)
    let ext : Cand2 K :=
      if zins > xins ∨ zins > yins then
        if xins > yins then ⟨xsb + 1, ysb - 1, dx0 - 1, dy0 + 1⟩
        else ⟨xsb - 1, ysb + 1, dx0 + 1, dy0 - 1⟩
      else
        ⟨xsb + 1, ysb + 1, dx0 - 1 - SQUISH_CONSTANT * 2,
          dy0 - 1 - SQUISH_CONSTANT * 2⟩
    [c10, c01, ⟨xsb, ysb, dx0, dy0⟩, ext]
  else
    let zins := 2 - (xins + yins)
    let ext : Cand2 K :=
      if zins < xins ∨ zins < yins then
        if xins > yins then
          ⟨xsb + 2, ysb, dx0 - 2 - SQUISH_CONSTANT * 2, dy0 - SQUISH_CONSTANT * 2⟩
        else
          ⟨xsb, ysb + 2, dx0 - SQUISH_CONSTANT * 2, dy0 - 2 - SQUISH_CONSTANT * 2⟩
      else ⟨xsb, ysb, dx0, dy0⟩
    [c10, c01,
      ⟨xsb + 1, ysb + 1, dx0 - 1 - SQUISH_CONSTANT * 2,
        dy0 - 1 - SQUISH_CONSTANT * 2⟩,
      ext]

/-- A 2D candidate's stored offset agrees with the offset one would
recompute at its vertex: relative to the origin offset `(dx0, dy0)`, the
move to `(xsv, ysv)` subtracts the lattice displacement plus the squish
of the displacement sum in each coordinate. -/
def Cand2.consistentOffset {K : Type} [LinearOrderedField K]
    (SQUISH_CONSTANT : K) (xsb ysb : ℤ) (dx0 dy0 : K) (c : Cand2 K) : Prop :=
  c.dx = dx0 - ((c.xsv - xsb : ℤ) : K)
      - (((c.xsv + c.ysv) - (xsb + ysb) : ℤ) : K) * SQUISH_CONSTANT ∧
  c.dy = dy0 - ((c.ysv - ysb : ℤ) : K)
      - (((c.xsv + c.ysv) - (xsb + ysb) : ℤ) : K) * SQUISH_CONSTANT

/-- The candidate vertices of `Noise<2,T>::eval`: the prelude places the
point on the stretched grid, floors to the lattice origin and computes
the unskewed offsets, then the branch block selects the candidates. -/
def candidates2 {K : Type} [LinearOrderedField K] [FloorRing K]
    (STRETCH_CONSTANT SQUISH_CONSTANT : K) (x y : K) : List (Cand2 K) :=
  let stretchOffset := (x + y) * STRETCH_CONSTANT
  let xs := x + stretchOffset
  let ys := y + stretchOffset
  let xsb : ℤ := ⌊xs⌋
  let ysb : ℤ := ⌊ys⌋
  let squishOffset := ((xsb : K) + (ysb : K)) * SQUISH_CONSTANT
  let xb := (xsb : K) + squishOffset
  let yb := (ysb : K) + squishOffset
  let dx0 := x - xb
  let dy0 := y - yb
  let xins := xs - (xsb : K)
  let yins := ys - (ysb : K)
  candidates2Core SQUISH_CONSTANT xsb ysb xins yins dx0 dy0

/-- `Noise<2,T>::eval` with the extrapolation primitive abstracted: each
candidate's attenuation `attn = dx² + dy²` weights its gradient
contribution through the kernel `max(2 - attn, 0)^4`; contributions
accumulate in code order and the sum is divided by the normalization
constant as the final operation. -/
def eval2With {K : Type} [LinearOrderedField K] [FloorRing K]
    (STRETCH_CONSTANT SQUISH_CONSTANT NORM_CONSTANT : K)
    (extrap : ℤ → ℤ → K → K → K) (x y : K) : K :=
  ((candidates2 STRETCH_CONSTANT SQUISH_CONSTANT x y).foldl
    (fun acc c =>
      acc + max (2 - (c.dx * c.dx + c.dy * c.dy)) 0 ^ 4
        * extrap c.xsv c.ysv c.dx c.dy) 0) / NORM_CONSTANT

/-- `STRETCH_CONSTANT` of the 2D evaluator: `(1/sqrt(2+1) - 1) * 0.5`. -/
noncomputable def STRETCH_CONSTANT_2D : ℝ := (1 / Real.sqrt (2 + 1) - 1) * 0.5

/-- `SQUISH_CONSTANT` of the 2D evaluator: `(sqrt(2+1) - 1) * 0.5`. -/
noncomputable def SQUISH_CONSTANT_2D : ℝ := (Real.sqrt (2 + 1) - 1) * 0.5

/-- `NORM_CONSTANT` of the 2D evaluator. -/
def NORM_CONSTANT_2D : ℝ := 47

/-- `Noise<2,T>::eval` for an instance with permutation table `perm`
(floating-point arithmetic idealised as exact real arithmetic). -/
noncomputable def Noise2.eval (perm : Fin 256 → ℤ) (x y : ℝ) : ℝ :=
  eval2With STRETCH_CONSTANT_2D SQUISH_CONSTANT_2D NORM_CONSTANT_2D
    (Noise2.extrapolate perm) x y

/-- A candidate lattice vertex of the 3D evaluators. -/
structure Cand3 where
  xsv : ℤ
  ysv : ℤ
  zsv : ℤ
  dx : ℚ
  dy : ℚ
  dz : ℚ

/-- `STRETCH_CONSTANT_3D = (1/sqrt(3+1) - 1) / 3 = -1/6`. -/
def STRETCH_CONSTANT_3D : ℚ := -1 / 6

/-- `SQUISH_CONSTANT_3D = (sqrt(3+1) - 1) / 3 = 1/3`. -/
def SQUISH_CONSTANT_3D : ℚ := 1 / 3

/-- The two extra vertices of the 3D middle band, derived from the
tie-broken closest-point pair (`Noise<3,T>::eval` /
`OpenSimplexNoise::eval`, octahedral case). -/
def exts3Mid (xsb ysb zsb : ℤ) (dx0 dy0 dz0 : ℚ) (aPoint bPoint : ℕ)
    (aFurther bFurther : Bool) : Cand3 × Cand3 :=
  let sq := SQUISH_CONSTANT_3D
  if aFurther = bFurther then
    if aFurther then
      -- Both closest points on the (1,1,1) side.
      let e0 : Cand3 := ⟨xsb + 1, ysb + 1, zsb + 1,
        dx0 - 1 - sq * 3, dy0 - 1 - sq * 3, dz0 - 1 - sq * 3⟩
      let c := aPoint &&& bPoint
      let e1 : Cand3 :=
        if c &&& 0x01 ≠ 0 then
          ⟨xsb + 2, ysb, zsb, dx0 - 2 - sq * 2, dy0 - sq * 2, dz0 - sq * 2⟩
        else if c &&& 0x02 ≠ 0 then
          ⟨xsb, ysb + 2, zsb, dx0 - sq * 2, dy0 - 2 - sq * 2, dz0 - sq * 2⟩
        else
          ⟨xsb, ysb, zsb + 2, dx0 - sq * 2, dy0 - sq * 2, dz0 - 2 - sq * 2⟩
      (e0, e1)
    else
      -- Both closest points on the (0,0,0) side.
      let e0 : Cand3 := ⟨xsb, ysb, zsb, dx0, dy0, dz0⟩
      let c := aPoint ||| bPoint
      let e1 : Cand3 :=
        if c &&& 0x01 = 0 then
          ⟨xsb - 1, ysb + 1, zsb + 1, dx0 + 1 - sq, dy0 - 1 - sq, dz0 - 1 - sq⟩
        else if c &&& 0x02 = 0 then
          ⟨xsb + 1, ysb - 1, zsb + 1, dx0 - 1 - sq, dy0 + 1 - sq, dz0 - 1 - sq⟩
        else
          ⟨xsb + 1, ysb + 1, zsb - 1, dx0 - 1 - sq, dy0 - 1 - sq, dz0 + 1 - sq⟩
      (e0, e1)
  else
    -- One point on each side.
    let c1 := if aFurther then aPoint else bPoint
    let c2 := if aFurther then bPoint else aPoint
    let e0 : Cand3 :=
      if c1 &&& 0x01 = 0 then
        ⟨xsb - 1, ysb + 1, zsb + 1, dx0 + 1 - sq, dy0 - 1 - sq, dz0 - 1 - sq⟩
      else if c1 &&& 0x02 = 0 then
        ⟨xsb + 1, ysb - 1, zsb + 1, dx0 - 1 - sq, dy0 + 1 - sq, dz0 - 1 - sq⟩
      else
        ⟨xsb + 1, ysb + 1, zsb - 1, dx0 - 1 - sq, dy0 - 1 - sq, dz0 + 1 - sq⟩
    let e1 : Cand3 :=
      if c2 &&& 0x01 ≠ 0 then
        ⟨xsb + 2, ysb, zsb, dx0 - 2 - sq * 2, dy0 - sq * 2, dz0 - sq * 2⟩
      else if c2 &&& 0x02 ≠ 0 then
        ⟨xsb, ysb + 2, zsb, dx0 - sq * 2, dy0 - 2 - sq * 2, dz0 - sq * 2⟩
      else
        ⟨xsb, ysb, zsb + 2, dx0 - sq * 2, dy0 - sq * 2, dz0 - 2 - sq * 2⟩
    (e0, e1)

/-- The two extra vertices of the origin tetrahedron when `(0,0,0)` is
one of the closest two tetrahedral vertices; `c` is the other closest
vertex. -/
def exts3BotNear (xsb ysb zsb : ℤ) (dx0 dy0 dz0 : ℚ) (c : ℕ) :
    Cand3 × Cand3 :=
  let xpart : (ℤ × ℤ) × (ℚ × ℚ) :=
    if c ≠ 1 then ((xsb - 1, xsb), (dx0 + 1, dx0))
    else ((xsb + 1, xsb + 1), (dx0 - 1, dx0 - 1))
  let ypart : (ℤ × ℤ) × (ℚ × ℚ) :=
    if c ≠ 2 then
      if c = 1 then ((ysb - 1, ysb), (dy0 + 1, dy0))
      else ((ysb, ysb - 1), (dy0, dy0 + 1))
    else ((ysb + 1, ysb + 1), (dy0 - 1, dy0 - 1))
  let zpart : (ℤ × ℤ) × (ℚ × ℚ) :=
    if c ≠ 4 then ((zsb, zsb - 1), (dz0, dz0 + 1))
    else ((zsb + 1, zsb + 1), (dz0 - 1, dz0 - 1))
  (⟨xpart.1.1, ypart.1.1, zpart.1.1, xpart.2.1, ypart.2.1, zpart.2.1⟩,
   ⟨xpart.1.2, ypart.1.2, zpart.1.2, xpart.2.2, ypart.2.2, zpart.2.2⟩)

/-- The two extra vertices of the origin tetrahedron when `(0,0,0)` is
not among the closest two; `c` is the union mask of the closest two. -/
def exts3BotFar (xsb ysb zsb : ℤ) (dx0 dy0 dz0 : ℚ) (c : ℕ) :
    Cand3 × Cand3 :=
  let sq := SQUISH_CONSTANT_3D
  let xpart : (ℤ × ℤ) × (ℚ × ℚ) :=
    if c &&& 0x01 ≠ 0 then
      ((xsb + 1, xsb + 1), (dx0 - 1 - sq * 2, dx0 - 1 - sq))
    else ((xsb, xsb - 1), (dx0 - sq * 2, dx0 + 1 - sq))
  let ypart : (ℤ × ℤ) × (ℚ × ℚ) :=
    if c &&& 0x02 ≠ 0 then
      ((ysb + 1, ysb + 1), (dy0 - 1 - sq * 2, dy0 - 1 - sq))
    else ((ysb, ysb - 1), (dy0 - sq * 2, dy0 + 1 - sq))
  let zpart : (ℤ × ℤ) × (ℚ × ℚ) :=
    if c &&& 0x04 ≠ 0 then
      ((zsb + 1, zsb + 1), (dz0 - 1 - sq * 2, dz0 - 1 - sq))
    else ((zsb, zsb - 1), (dz0 - sq * 2, dz0 + 1 - sq))
  (⟨xpart.1.1, ypart.1.1, zpart.1.1, xpart.2.1, ypart.2.1, zpart.2.1⟩,
   ⟨xpart.1.2, ypart.1.2, zpart.1.2, xpart.2.2, ypart.2.2, zpart.2.2⟩)

/-- The two extra vertices of the far tetrahedron when `(1,1,1)` is one
of the closest two tetrahedral vertices; `c` is the other closest
vertex. -/
def exts3TopClose (xsb ysb zsb : ℤ) (dx0 dy0 dz0 : ℚ) (c : ℕ) :
    Cand3 × Cand3 :=
  let sq := SQUISH_CONSTANT_3D
  let xpart : (ℤ × ℤ) × (ℚ × ℚ) :=
    if c &&& 0x01 ≠ 0 then
      ((xsb + 2, xsb + 1), (dx0 - 2 - sq * 3, dx0 - 1 - sq * 3))
    else ((xsb, xsb), (dx0 - sq * 3, dx0 - sq * 3))
  let ypart : (ℤ × ℤ) × (ℚ × ℚ) :=
    if c &&& 0x02 ≠ 0 then
      if c &&& 0x01 ≠ 0 then
        ((ysb + 1, ysb + 2), (dy0 - 1 - sq * 3, dy0 - 2 - sq * 3))
      else ((ysb + 2, ysb + 1), (dy0 - 2 - sq * 3, dy0 - 1 - sq * 3))
    else ((ysb, ysb), (dy0 - sq * 3, dy0 - sq * 3))
  let zpart : (ℤ × ℤ) × (ℚ × ℚ) :=
    if c &&& 0x04 ≠ 0 then
      ((zsb + 1, zsb + 2), (dz0 - 1 - sq * 3, dz0 - 2 - sq * 3))
    else ((zsb, zsb), (dz0 - sq * 3, dz0 - sq * 3))
  (⟨xpart.1.1, ypart.1.1, zpart.1.1, xpart.2.1, ypart.2.1, zpart.2.1⟩,
   ⟨xpart.1.2, ypart.1.2, zpart.1.2, xpart.2.2, ypart.2.2, zpart.2.2⟩)

/-- The two extra vertices of the far tetrahedron when `(1,1,1)` is not
among the closest two; `c` is the intersection mask of the closest
two. -/
def exts3TopFar (xsb ysb zsb : ℤ) (dx0 dy0 dz0 : ℚ) (c : ℕ) :
    Cand3 × Cand3 :=
  let sq := SQUISH_CONSTANT_3D
  let xpart : (ℤ × ℤ) × (ℚ × ℚ) :=
    if c &&& 0x01 ≠ 0 then
      ((xsb + 1, xsb + 2), (dx0 - 1 - sq, dx0 - 2 - sq * 2))
    else ((xsb, xsb), (dx0 - sq, dx0 - sq * 2))
  let ypart : (ℤ × ℤ) × (ℚ × ℚ) :=
    if c &&& 0x02 ≠ 0 then
      ((ysb + 1, ysb + 2), (dy0 - 1 - sq, dy0 - 2 - sq * 2))
    else ((ysb, ysb), (dy0 - sq, dy0 - sq * 2))
  let zpart : (ℤ × ℤ) × (ℚ × ℚ) :=
    if c &&& 0x04 ≠ 0 then
      ((zsb + 1, zsb + 2), (dz0 - 1 - sq, dz0 - 2 - sq * 2))
    else ((zsb, zsb), (dz0 - sq, dz0 - sq * 2))
  (⟨xpart.1.1, ypart.1.1, zpart.1.1, xpart.2.1, ypart.2.1, zpart.2.1⟩,
   ⟨xpart.1.2, ypart.1.2, zpart.1.2, xpart.2.2, ypart.2.2, zpart.2.2⟩)

/-- The branch block of the 3D evaluators after their shared prelude:
given the lattice origin, the stretched fractional parts and the
unskewed offsets, produce the candidate vertices in the order the code
accumulates their contributions.  The branch structure (octahedral
middle band, origin tetrahedron, far tetrahedron; tie-break score
comparisons; derivation of the two extra vertices) is shared verbatim
between `Noise<3,T>::eval` and the legacy `OpenSimplexNoise::eval`. -/
def candidates3Core (xsb ysb zsb : ℤ) (xins yins zins dx0 dy0 dz0 : ℚ) :
    List Cand3 :=
  let inSum := xins + yins + zins
  let sq := SQUISH_CONSTANT_3D
  if 1 < inSum ∧ inSum < 2 then
    -- Octahedral middle band.
    let p1 := xins + yins
    let a0 : ℚ × ℕ × Bool := if p1 ≤ 1 then (1 - p1, 4, false) else (p1 - 1, 3, true)
    let p2 := xins + zins
    let b0 : ℚ × ℕ × Bool := if p2 ≤ 1 then (1 - p2, 2, false) else (p2 - 1, 5, true)
    let p3 := yins + zins
    let ab : (ℚ × ℕ × Bool) × (ℚ × ℕ × Bool) :=
      if 1 < p3 then
        if a0.1 > b0.1 ∧ b0.1 < p3 - 1 then (a0, (p3 - 1, 6, true))
        else if a0.1 ≤ b0.1 ∧ a0.1 < p3 - 1 then ((p3 - 1, 6, true), b0)
        else (a0, b0)
      else
        if a0.1 > b0.1 ∧ b0.1 < 1 - p3 then (a0, (1 - p3, 1, false))
        else if a0.1 ≤ b0.1 ∧ a0.1 < 1 - p3 then ((1 - p3, 1, false), b0)
        else (a0, b0)
    let exts : Cand3 × Cand3 :=
      exts3Mid xsb ysb zsb dx0 dy0 dz0 ab.1.2.1 ab.2.2.1 ab.1.2.2 ab.2.2.2
    [⟨xsb + 1, ysb, zsb, dx0 - 1 - sq, dy0 - sq, dz0 - sq⟩,
     ⟨xsb, ysb + 1, zsb, dx0 - sq, dy0 - 1 - sq, dz0 - sq⟩,
     ⟨xsb, ysb, zsb + 1, dx0 - sq, dy0 - sq, dz0 - 1 - sq⟩,
     ⟨xsb + 1, ysb + 1, zsb, dx0 - 1 - sq * 2, dy0 - 1 - sq * 2, dz0 - sq * 2⟩,
     ⟨xsb + 1, ysb, zsb + 1, dx0 - 1 - sq * 2, dy0 - sq * 2, dz0 - 1 - sq * 2⟩,
     ⟨xsb, ysb + 1, zsb + 1, dx0 - sq * 2, dy0 - 1 - sq * 2, dz0 - 1 - sq * 2⟩,
     exts.1, exts.2]
  else if inSum ≤ 1 then
    -- Tetrahedron at (0,0,0).
    let ab : (ℚ × ℕ) × (ℚ × ℕ) :=
      if xins < yins ∧ zins > xins then ((zins, 4), (yins, 2))
      else if xins ≥ yins ∧ zins > yins then ((xins, 1), (zins, 4))
      else ((xins, 1), (yins, 2))
    let aScore := ab.1.1
    let aPoint := ab.1.2
    let bScore := ab.2.1
    let bPoint := ab.2.2
    let wins := 1 - inSum
    let exts : Cand3 × Cand3 :=
      if wins > aScore ∨ wins > bScore then
        exts3BotNear xsb ysb zsb dx0 dy0 dz0
          (if bScore > aScore then bPoint else aPoint)
      else
        exts3BotFar xsb ysb zsb dx0 dy0 dz0 (aPoint ||| bPoint)
    [⟨xsb, ysb, zsb, dx0, dy0, dz0⟩,
     ⟨xsb + 1, ysb, zsb, dx0 - 1 - sq, dy0 - sq, dz0 - sq⟩,
     ⟨xsb, ysb + 1, zsb, dx0 - sq, dy0 - 1 - sq, dz0 - sq⟩,
     ⟨xsb, ysb, zsb + 1, dx0 - sq, dy0 - sq, dz0 - 1 - sq⟩,
     exts.1, exts.2]
  else
    -- Tetrahedron at (1,1,1).
    let ab : (ℚ × ℕ) × (ℚ × ℕ) :=
      if xins ≤ yins ∧ zins < yins then ((xins, 6), (zins, 3))
      else if xins > yins ∧ zins < xins then ((zins, 3), (yins, 5))
      else ((xins, 6), (yins, 5))
    let aScore := ab.1.1
    let aPoint := ab.1.2
    let bScore := ab.2.1
    let bPoint := ab.2.2
    let wins := 3 - inSum
    let exts : Cand3 × Cand3 :=
      if wins < aScore ∨ wins < bScore then
        exts3TopClose xsb ysb zsb dx0 dy0 dz0
          (if bScore < aScore then bPoint else aPoint)
      else
        exts3TopFar xsb ysb zsb dx0 dy0 dz0 (aPoint &&& bPoint)
    [⟨xsb + 1, ysb + 1, zsb, dx0 - 1 - sq * 2, dy0 - 1 - sq * 2, dz0 - sq * 2⟩,
     ⟨xsb + 1, ysb, zsb + 1, dx0 - 1 - sq * 2, dy0 - sq * 2, dz0 - 1 - sq * 2⟩,
     ⟨xsb, ysb + 1, zsb + 1, dx0 - sq * 2, dy0 - 1 - sq * 2, dz0 - 1 - sq * 2⟩,
     ⟨xsb + 1, ysb + 1, zsb + 1, dx0 - 1 - sq * 3, dy0 - 1 - sq * 3, dz0 - 1 - sq * 3⟩,
     exts.1, exts.2]

/-- A 3D candidate's stored offset agrees with the offset one would
recompute at its vertex: relative to the origin offset
`(dx0, dy0, dz0)`, the move to `(xsv, ysv, zsv)` subtracts the lattice
displacement plus the squish of the displacement sum in each
coordinate. -/
def Cand3.consistentOffset (xsb ysb zsb : ℤ) (dx0 dy0 dz0 : ℚ)
    (c : Cand3) : Prop :=
  c.dx = dx0 - ((c.xsv - xsb : ℤ) : ℚ)
      - (((c.xsv + c.ysv + c.zsv) - (xsb + ysb + zsb) : ℤ) : ℚ)
        * SQUISH_CONSTANT_3D ∧
  c.dy = dy0 - ((c.ysv - ysb : ℤ) : ℚ)
      - (((c.xsv + c.ysv + c.zsv) - (xsb + ysb + zsb) : ℤ) : ℚ)
        * SQUISH_CONSTANT_3D ∧
  c.dz = dz0 - ((c.zsv - zsb : ℤ) : ℚ)
      - (((c.xsv + c.ysv + c.zsv) - (xsb + ysb + zsb) : ℤ) : ℚ)
        * SQUISH_CONSTANT_3D

/-- The candidate vertices of the 3D evaluators: the shared prelude
places the point on the simplectic lattice, floors to the rhombohedron
origin and computes the unskewed offsets, then the branch block selects
the candidates. -/
def candidates3 (x y z : ℚ) : List Cand3 :=
  let stretchOffset := (x + y + z) * STRETCH_CONSTANT_3D
  let xs := x + stretchOffset
  let ys := y + stretchOffset
  let zs := z + stretchOffset
  let xsb : ℤ := ⌊xs⌋
  let ysb : ℤ := ⌊ys⌋
  let zsb : ℤ := ⌊zs⌋
  let squishOffset := ((xsb : ℚ) + (ysb : ℚ) + (zsb : ℚ)) * SQUISH_CONSTANT_3D
  let dx0 := x - ((xsb : ℚ) + squishOffset)
  let dy0 := y - ((ysb : ℚ) + squishOffset)
  let dz0 := z - ((zsb : ℚ) + squishOffset)
  let xins := xs - (xsb : ℚ)
  let yins := ys - (ysb : ℚ)
  let zins := zs - (zsb : ℚ)
  candidates3Core xsb ysb zsb xins yins zins dx0 dy0 dz0

/-- `Noise<3,T>::eval` with the extrapolation primitive abstracted:
unconditional accumulation through the kernel `max(2 - attn, 0)^4`,
normalised by 103. -/
def eval3With (extrap : ℤ → ℤ → ℤ → ℚ → ℚ → ℚ → ℚ) (x y z : ℚ) : ℚ :=
  ((candidates3 x y z).foldl
    (fun acc c =>
      acc + max (2 - (c.dx * c.dx + c.dy * c.dy + c.dz * c.dz)) 0 ^ 4
        * extrap c.xsv c.ysv c.zsv c.dx c.dy c.dz) 0) / 103

/-- `Noise<3,T>::eval` (floating point idealised as exact rational
arithmetic; the 3D constants are rational). -/
def Noise3.eval (inst : Noise3) (x y z : ℚ) : ℚ :=
  eval3With inst.extrapolate x y z

/-- `NORM_CONSTANT_3D` of the legacy header. -/
def NORM_CONSTANT_3D : ℚ := 28.25

/-- Legacy `OpenSimplexNoise::eval` with the extrapolation primitive
abstracted: each contribution is guarded by `if (attn < 2.0)` and the
sum is normalised by 28.25. -/
def evalHHWith (extrap : ℤ → ℤ → ℤ → ℚ → ℚ → ℚ → ℚ) (x y z : ℚ) : ℚ :=
  ((candidates3 x y z).foldl
    (fun acc c =>
      let attn := c.dx * c.dx + c.dy * c.dy + c.dz * c.dz
      if attn < 2 then
        acc + (2 - attn) ^ 4 * extrap c.xsv c.ysv c.zsv c.dx c.dy c.dz
      else acc) 0) / NORM_CONSTANT_3D

/-- Legacy `OpenSimplexNoise::eval`. -/
def OpenSimplexNoise.eval (inst : OpenSimplexNoise) (x y z : ℚ) : ℚ :=
  evalHHWith inst.extrapolate x y z

/-- A candidate lattice vertex of the 4D evaluator. -/
structure Cand4 (K : Type) where
  xsv : ℤ
  ysv : ℤ
  zsv : ℤ
  wsv : ℤ
  dx : K
  dy : K
  dz : K
  dw : K

/-- The first dispentachoron branch of `Noise<4,T>::eval`
(`1 < inSum ≤ 2`): tie-break over the six two-axis corners and the four
single-axis corners, then derive the three extra vertices. -/
def candidates4MidA {K : Type} [LinearOrderedField K] [FloorRing K]
    (STRETCH_CONSTANT SQUISH_CONSTANT : K) (x y z w : K) : List (Cand4 K) :=
  let stretchOffset := (x + y + z + w) * STRETCH_CONSTANT
  let xs := x + stretchOffset
  let ys := y + stretchOffset
  let zs := z + stretchOffset
  let ws := w + stretchOffset
  let xsb : ℤ := ⌊xs⌋
  let ysb : ℤ := ⌊ys⌋
  let zsb : ℤ := ⌊zs⌋
  let wsb : ℤ := ⌊ws⌋
  let squishOffset := ((xsb : K) + (ysb : K) + (zsb : K) + (wsb : K)) * SQUISH_CONSTANT
  let dx0 := x - ((xsb : K) + squishOffset)
  let dy0 := y - ((ysb : K) + squishOffset)
  let dz0 := z - ((zsb : K) + squishOffset)
  let dw0 := w - ((wsb : K) + squishOffset)
  let xins := xs - (xsb : K)
  let yins := ys - (ysb : K)
  let zins := zs - (zsb : K)
  let wins := ws - (wsb : K)
  let inSum := xins + yins + zins + wins
  let sq := SQUISH_CONSTANT
  let a0 : ℕ × K × Bool :=
    if xins + yins > zins + wins then (0x03, xins + yins, true)
    else (0x0C, zins + wins, true)
  let b0 : ℕ × K × Bool :=
    if xins + zins > yins + wins then (0x05, xins + zins, true)
    else (0x0A, yins + wins, true)
  let ab1 : (ℕ × K × Bool) × (ℕ × K × Bool) :=
    if xins + wins > yins + zins then
      if a0.2.1 ≥ b0.2.1 ∧ xins + wins > b0.2.1 then (a0, (0x09, xins + wins, true))
      else if a0.2.1 < b0.2.1 ∧ xins + wins > a0.2.1 then ((0x09, xins + wins, true), b0)
      else (a0, b0)
    else
      if a0.2.1 ≥ b0.2.1 ∧ yins + zins > b0.2.1 then (a0, (0x06, yins + zins, true))
      else if a0.2.1 < b0.2.1 ∧ yins + zins > a0.2.1 then ((0x06, yins + zins, true), b0)
      else (a0, b0)
  let p1 := 2 - inSum + xins
  let ab2 : (ℕ × K × Bool) × (ℕ × K × Bool) :=
    if ab1.1.2.1 ≥ ab1.2.2.1 ∧ p1 > ab1.2.2.1 then (ab1.1, (0x01, p1, false))
    else if ab1.1.2.1 < ab1.2.2.1 ∧ p1 > ab1.1.2.1 then ((0x01, p1, false), ab1.2)
    else ab1
  let p2 := 2 - inSum + yins
  let ab3 : (ℕ × K × Bool) × (ℕ × K × Bool) :=
    if ab2.1.2.1 ≥ ab2.2.2.1 ∧ p2 > ab2.2.2.1 then (ab2.1, (0x02, p2, false))
    else if ab2.1.2.1 < ab2.2.2.1 ∧ p2 > ab2.1.2.1 then ((0x02, p2, false), ab2.2)
    else ab2
  let p3 := 2 - inSum + zins
  let ab4 : (ℕ × K × Bool) × (ℕ × K × Bool) :=
    if ab3.1.2.1 ≥ ab3.2.2.1 ∧ p3 > ab3.2.2.1 then (ab3.1, (0x04, p3, false))
    else if ab3.1.2.1 < ab3.2.2.1 ∧ p3 > ab3.1.2.1 then ((0x04, p3, false), ab3.2)
    else ab3
  let p4 := 2 - inSum + wins
  let ab5 : (ℕ × K × Bool) × (ℕ × K × Bool) :=
    if ab4.1.2.1 ≥ ab4.2.2.1 ∧ p4 > ab4.2.2.1 then (ab4.1, (0x08, p4, false))
    else if ab4.1.2.1 < ab4.2.2.1 ∧ p4 > ab4.1.2.1 then ((0x08, p4, false), ab4.2)
    else ab4
  let aPoint := ab5.1.1
  let aBig := ab5.1.2.2
  let bPoint := ab5.2.1
  let bBig := ab5.2.2.2
  let exts : Cand4 K × Cand4 K × Cand4 K :=
    if aBig = bBig then
      if aBig then
        -- Both closest points are on the bigger side.
        let c1 := aPoint ||| bPoint
        let c2 := aPoint &&& bPoint
        let xpart : (ℤ × ℤ) × (K × K) :=
          if c1 &&& 0x01 = 0 then ((xsb, xsb - 1), (dx0 - sq * 3, dx0 + 1 - sq * 2))
          else ((xsb + 1, xsb + 1), (dx0 - 1 - sq * 3, dx0 - 1 - sq * 2))
        let ypart : (ℤ × ℤ) × (K × K) :=
          if c1 &&& 0x02 = 0 then ((ysb, ysb - 1), (dy0 - sq * 3, dy0 + 1 - sq * 2))
          else ((ysb + 1, ysb + 1), (dy0 - 1 - sq * 3, dy0 - 1 - sq * 2))
        let zpart : (ℤ × ℤ) × (K × K) :=
          if c1 &&& 0x04 = 0 then ((zsb, zsb - 1), (dz0 - sq * 3, dz0 + 1 - sq * 2))
          else ((zsb + 1, zsb + 1), (dz0 - 1 - sq * 3, dz0 - 1 - sq * 2))
        let wpart : (ℤ × ℤ) × (K × K) :=
          if c1 &&& 0x08 = 0 then ((wsb, wsb - 1), (dw0 - sq * 3, dw0 + 1 - sq * 2))
          else ((wsb + 1, wsb + 1), (dw0 - 1 - sq * 3, dw0 - 1 - sq * 2))
        let e2 : Cand4 K :=
          if c2 &&& 0x01 ≠ 0 then
            ⟨xsb + 2, ysb, zsb, wsb,
              dx0 - 2 - sq * 2, dy0 - sq * 2, dz0 - sq * 2, dw0 - sq * 2⟩
          else if c2 &&& 0x02 ≠ 0 then
            ⟨xsb, ysb + 2, zsb, wsb,
              dx0 - sq * 2, dy0 - 2 - sq * 2, dz0 - sq * 2, dw0 - sq * 2⟩
          else if c2 &&& 0x04 ≠ 0 then
            ⟨xsb, ysb, zsb + 2, wsb,
              dx0 - sq * 2, dy0 - sq * 2, dz0 - 2 - sq * 2, dw0 - sq * 2⟩
          else
            ⟨xsb, ysb, zsb, wsb + 2,
              dx0 - sq * 2, dy0 - sq * 2, dz0 - sq * 2, dw0 - 2 - sq * 2⟩
        (⟨xpart.1.1, ypart.1.1, zpart.1.1, wpart.1.1,
           xpart.2.1, ypart.2.1, zpart.2.1, wpart.2.1⟩,
         ⟨xpart.1.2, ypart.1.2, zpart.1.2, wpart.1.2,
           xpart.2.2, ypart.2.2, zpart.2.2, wpart.2.2⟩, e2)
      else
        -- Both closest points are on the smaller side.
        let e2 : Cand4 K := ⟨xsb, ysb, zsb, wsb, dx0, dy0, dz0, dw0⟩
        let c := aPoint ||| bPoint
        let xpart : (ℤ × ℤ) × (K × K) :=
          if c &&& 0x01 = 0 then ((xsb - 1, xsb), (dx0 + 1 - sq, dx0 - sq))
          else ((xsb + 1, xsb + 1), (dx0 - 1 - sq, dx0 - 1 - sq))
        let ypart : (ℤ × ℤ) × (K × K) :=
          if c &&& 0x02 = 0 then
            if c &&& 0x01 ≠ 0 then ((ysb - 1, ysb), (dy0 + 1 - sq, dy0 - sq))
            else ((ysb, ysb - 1), (dy0 - sq, dy0 + 1 - sq))
          else ((ysb + 1, ysb + 1), (dy0 - 1 - sq, dy0 - 1 - sq))
        let zpart : (ℤ × ℤ) × (K × K) :=
          if c &&& 0x04 = 0 then
            if c &&& 0x03 = 0x03 then ((zsb - 1, zsb), (dz0 + 1 - sq, dz0 - sq))
            else ((zsb, zsb - 1), (dz0 - sq, dz0 + 1 - sq))
          else ((zsb + 1, zsb + 1), (dz0 - 1 - sq, dz0 - 1 - sq))
        let wpart : (ℤ × ℤ) × (K × K) :=
          if c &&& 0x08 = 0 then ((wsb, wsb - 1), (dw0 - sq, dw0 + 1 - sq))
          else ((wsb + 1, wsb + 1), (dw0 - 1 - sq, dw0 - 1 - sq))
        (⟨xpart.1.1, ypart.1.1, zpart.1.1, wpart.1.1,
           xpart.2.1, ypart.2.1, zpart.2.1, wpart.2.1⟩,
         ⟨xpart.1.2, ypart.1.2, zpart.1.2, wpart.1.2,
           xpart.2.2, ypart.2.2, zpart.2.2, wpart.2.2⟩, e2)
    else
      -- One point on each side.
      let c1 := if aBig then aPoint else bPoint
      let c2 := if aBig then bPoint else aPoint
      let xpart : (ℤ × ℤ) × (K × K) :=
        if c1 &&& 0x01 = 0 then ((xsb - 1, xsb), (dx0 + 1 - sq, dx0 - sq))
        else ((xsb + 1, xsb + 1), (dx0 - 1 - sq, dx0 - 1 - sq))
      let ypart : (ℤ × ℤ) × (K × K) :=
        if c1 &&& 0x02 = 0 then
          if c1 &&& 0x01 = 0x01 then ((ysb - 1, ysb), (dy0 + 1 - sq, dy0 - sq))
          else ((ysb, ysb - 1), (dy0 - sq, dy0 + 1 - sq))
        else ((ysb + 1, ysb + 1), (dy0 - 1 - sq, dy0 - 1 - sq))
      let zpart : (ℤ × ℤ) × (K × K) :=
        if c1 &&& 0x04 = 0 then
          if c1 &&& 0x03 = 0x03 then ((zsb - 1, zsb), (dz0 + 1 - sq, dz0 - sq))
          else ((zsb, zsb - 1), (dz0 - sq, dz0 + 1 - sq))
        else ((zsb + 1, zsb + 1), (dz0 - 1 - sq, dz0 - 1 - sq))
      let wpart : (ℤ × ℤ) × (K × K) :=
        if c1 &&& 0x08 = 0 then ((wsb, wsb - 1), (dw0 - sq, dw0 + 1 - sq))
        else ((wsb + 1, wsb + 1), (dw0 - 1 - sq, dw0 - 1 - sq))
      let e2 : Cand4 K :=
        if c2 &&& 0x01 ≠ 0 then
          ⟨xsb + 2, ysb, zsb, wsb,
            dx0 - 2 - sq * 2, dy0 - sq * 2, dz0 - sq * 2, dw0 - sq * 2⟩
        else if c2 &&& 0x02 ≠ 0 then
          ⟨xsb, ysb + 2, zsb, wsb,
            dx0 - sq * 2, dy0 - 2 - sq * 2, dz0 - sq * 2, dw0 - sq * 2⟩
        else if c2 &&& 0x04 ≠ 0 then
          ⟨xsb, ysb, zsb + 2, wsb,
            dx0 - sq * 2, dy0 - sq * 2, dz0 - 2 - sq * 2, dw0 - sq * 2⟩
        else
          ⟨xsb, ysb, zsb, wsb + 2,
            dx0 - sq * 2, dy0 - sq * 2, dz0 - sq * 2, dw0 - 2 - sq * 2⟩
      (⟨xpart.1.1, ypart.1.1, zpart.1.1, wpart.1.1,
         xpart.2.1, ypart.2.1, zpart.2.1, wpart.2.1⟩,
       ⟨xpart.1.2, ypart.1.2, zpart.1.2, wpart.1.2,
         xpart.2.2, ypart.2.2, zpart.2.2, wpart.2.2⟩, e2)
  [⟨xsb + 1, ysb, zsb, wsb, dx0 - 1 - sq, dy0 - sq, dz0 - sq, dw0 - sq⟩,
   ⟨xsb, ysb + 1, zsb, wsb, dx0 - sq, dy0 - 1 - sq, dz0 - sq, dw0 - sq⟩,
   ⟨xsb, ysb, zsb + 1, wsb, dx0 - sq, dy0 - sq, dz0 - 1 - sq, dw0 - sq⟩,
   ⟨xsb, ysb, zsb, wsb + 1, dx0 - sq, dy0 - sq, dz0 - sq, dw0 - 1 - sq⟩,
   ⟨xsb + 1, ysb + 1, zsb, wsb,
     dx0 - 1 - sq * 2, dy0 - 1 - sq * 2, dz0 - sq * 2, dw0 - sq * 2⟩,
   ⟨xsb + 1, ysb, zsb + 1, wsb,
     dx0 - 1 - sq * 2, dy0 - sq * 2, dz0 - 1 - sq * 2, dw0 - sq * 2⟩,
   ⟨xsb + 1, ysb, zsb, wsb + 1,
     dx0 - 1 - sq * 2, dy0 - sq * 2, dz0 - sq * 2, dw0 - 1 - sq * 2⟩,
   ⟨xsb, ysb + 1, zsb + 1, wsb,
     dx0 - sq * 2, dy0 - 1 - sq * 2, dz0 - 1 - sq * 2, dw0 - sq * 2⟩,
   ⟨xsb, ysb + 1, zsb, wsb + 1,
     dx0 - sq * 2, dy0 - 1 - sq * 2, dz0 - sq * 2, dw0 - 1 - sq * 2⟩,
   ⟨xsb, ysb, zsb + 1, wsb + 1,
     dx0 - 2 * sq, dy0 - 2 * sq, dz0 - 1 - sq * 2, dw0 - 1 - sq * 2⟩,
   exts.1, exts.2.1, exts.2.2]

/-- The second dispentachoron branch of `Noise<4,T>::eval`
(`2 < inSum < 3`). -/
def candidates4MidB {K : Type} [LinearOrderedField K] [FloorRing K]
    (STRETCH_CONSTANT SQUISH_CONSTANT : K) (x y z w : K) : List (Cand4 K) :=
  let stretchOffset := (x + y + z + w) * STRETCH_CONSTANT
  let xs := x + stretchOffset
  let ys := y + stretchOffset
  let zs := z + stretchOffset
  let ws := w + stretchOffset
  let xsb : ℤ := ⌊xs⌋
  let ysb : ℤ := ⌊ys⌋
  let zsb : ℤ := ⌊zs⌋
  let wsb : ℤ := ⌊ws⌋
  let squishOffset := ((xsb : K) + (ysb : K) + (zsb : K) + (wsb : K)) * SQUISH_CONSTANT
  let dx0 := x - ((xsb : K) + squishOffset)
  let dy0 := y - ((ysb : K) + squishOffset)
  let dz0 := z - ((zsb : K) + squishOffset)
  let dw0 := w - ((wsb : K) + squishOffset)
  let xins := xs - (xsb : K)
  let yins := ys - (ysb : K)
  let zins := zs - (zsb : K)
  let wins := ws - (wsb : K)
  let inSum := xins + yins + zins + wins
  let sq := SQUISH_CONSTANT
  let a0 : ℕ × K × Bool :=
    if xins + yins < zins + wins then (0x0C, xins + yins, true)
    else (0x03, zins + wins, true)
  let b0 : ℕ × K × Bool :=
    if xins + zins < yins + wins then (0x0A, xins + zins, true)
    else (0x05, yins + wins, true)
  let ab1 : (ℕ × K × Bool) × (ℕ × K × Bool) :=
    if xins + wins < yins + zins then
      if a0.2.1 ≤ b0.2.1 ∧ xins + wins < b0.2.1 then (a0, (0x06, xins + wins, true))
      else if a0.2.1 > b0.2.1 ∧ xins + wins < a0.2.1 then ((0x06, xins + wins, true), b0)
      else (a0, b0)
    else
      if a0.2.1 ≤ b0.2.1 ∧ yins + zins < b0.2.1 then (a0, (0x09, yins + zins, true))
      else if a0.2.1 > b0.2.1 ∧ yins + zins < a0.2.1 then ((0x09, yins + zins, true), b0)
      else (a0, b0)
  let p1 := 3 - inSum + xins
  let ab2 : (ℕ × K × Bool) × (ℕ × K × Bool) :=
    if ab1.1.2.1 ≤ ab1.2.2.1 ∧ p1 < ab1.2.2.1 then (ab1.1, (0x0E, p1, false))
    else if ab1.1.2.1 > ab1.2.2.1 ∧ p1 < ab1.1.2.1 then ((0x0E, p1, false), ab1.2)
    else ab1
  let p2 := 3 - inSum + yins
  let ab3 : (ℕ × K × Bool) × (ℕ × K × Bool) :=
    if ab2.1.2.1 ≤ ab2.2.2.1 ∧ p2 < ab2.2.2.1 then (ab2.1, (0x0D, p2, false))
    else if ab2.1.2.1 > ab2.2.2.1 ∧ p2 < ab2.1.2.1 then ((0x0D, p2, false), ab2.2)
    else ab2
  let p3 := 3 - inSum + zins
  let ab4 : (ℕ × K × Bool) × (ℕ × K × Bool) :=
    if ab3.1.2.1 ≤ ab3.2.2.1 ∧ p3 < ab3.2.2.1 then (ab3.1, (0x0B, p3, false))
    else if ab3.1.2.1 > ab3.2.2.1 ∧ p3 < ab3.1.2.1 then ((0x0B, p3, false), ab3.2)
    else ab3
  let p4 := 3 - inSum + wins
  let ab5 : (ℕ × K × Bool) × (ℕ × K × Bool) :=
    if ab4.1.2.1 ≤ ab4.2.2.1 ∧ p4 < ab4.2.2.1 then (ab4.1, (0x07, p4, false))
    else if ab4.1.2.1 > ab4.2.2.1 ∧ p4 < ab4.1.2.1 then ((0x07, p4, false), ab4.2)
    else ab4
  let aPoint := ab5.1.1
  let aBig := ab5.1.2.2
  let bPoint := ab5.2.1
  let bBig := ab5.2.2.2
  let exts : Cand4 K × Cand4 K × Cand4 K :=
    if aBig = bBig then
      if aBig then
        -- Both closest points are on the bigger side.
        let c1 := aPoint &&& bPoint
        let c2 := aPoint ||| bPoint
        let e01 : Cand4 K × Cand4 K :=
          if c1 &&& 0x01 ≠ 0 then
            (⟨xsb + 1, ysb, zsb, wsb, dx0 - 1 - sq, dy0 - sq, dz0 - sq, dw0 - sq⟩,
             ⟨xsb + 2, ysb, zsb, wsb,
               dx0 - 2 - sq * 2, dy0 - sq * 2, dz0 - sq * 2, dw0 - sq * 2⟩)
          else if c1 &&& 0x02 ≠ 0 then
            (⟨xsb, ysb + 1, zsb, wsb, dx0 - sq, dy0 - 1 - sq, dz0 - sq, dw0 - sq⟩,
             ⟨xsb, ysb + 2, zsb, wsb,
               dx0 - sq * 2, dy0 - 2 - sq * 2, dz0 - sq * 2, dw0 - sq * 2⟩)
          else if c1 &&& 0x04 ≠ 0 then
            (⟨xsb, ysb, zsb + 1, wsb, dx0 - sq, dy0 - sq, dz0 - 1 - sq, dw0 - sq⟩,
             ⟨xsb, ysb, zsb + 2, wsb,
               dx0 - sq * 2, dy0 - sq * 2, dz0 - 2 - sq * 2, dw0 - sq * 2⟩)
          else
            (⟨xsb, ysb, zsb, wsb + 1, dx0 - sq, dy0 - sq, dz0 - sq, dw0 - 1 - sq⟩,
             ⟨xsb, ysb, zsb, wsb + 2,
               dx0 - sq * 2, dy0 - sq * 2, dz0 - sq * 2, dw0 - 2 - sq * 2⟩)
        let e2 : Cand4 K :=
          if c2 &&& 0x01 = 0 then
            ⟨xsb - 1, ysb + 1, zsb + 1, wsb + 1,
              dx0 + 1 - sq * 2, dy0 - 1 - sq * 2, dz0 - 1 - sq * 2, dw0 - 1 - sq * 2⟩
          else if c2 &&& 0x02 = 0 then
            ⟨xsb + 1, ysb - 1, zsb + 1, wsb + 1,
              dx0 - 1 - sq * 2, dy0 + 1 - sq * 2, dz0 - 1 - sq * 2, dw0 - 1 - sq * 2⟩
          else if c2 &&& 0x04 = 0 then
            ⟨xsb + 1, ysb + 1, zsb - 1, wsb + 1,
              dx0 - 1 - sq * 2, dy0 - 1 - sq * 2, dz0 + 1 - sq * 2, dw0 - 1 - sq * 2⟩
          else
            ⟨xsb + 1, ysb + 1, zsb + 1, wsb - 1,
              dx0 - 1 - sq * 2, dy0 - 1 - sq * 2, dz0 - 1 - sq * 2, dw0 + 1 - sq * 2⟩
        (e01.1, e01.2, e2)
      else
        -- Both closest points are on the smaller side.
        let e2 : Cand4 K :=
          ⟨xsb + 1, ysb + 1, zsb + 1, wsb + 1,
            dx0 - 1 - sq * 4, dy0 - 1 - sq * 4, dz0 - 1 - sq * 4, dw0 - 1 - sq * 4⟩
        let c := aPoint &&& bPoint
        let xpart : (ℤ × ℤ) × (K × K) :=
          if c &&& 0x01 ≠ 0 then
            ((xsb + 2, xsb + 1), (dx0 - 2 - sq * 3, dx0 - 1 - sq * 3))
          else ((xsb, xsb), (dx0 - sq * 3, dx0 - sq * 3))
        let ypart : (ℤ × ℤ) × (K × K) :=
          if c &&& 0x02 ≠ 0 then
            if c &&& 0x01 = 0 then
              ((ysb + 2, ysb + 1), (dy0 - 2 - sq * 3, dy0 - 1 - sq * 3))
            else ((ysb + 1, ysb + 2), (dy0 - 1 - sq * 3, dy0 - 2 - sq * 3))
          else ((ysb, ysb), (dy0 - sq * 3, dy0 - sq * 3))
        let zpart : (ℤ × ℤ) × (K × K) :=
          if c &&& 0x04 ≠ 0 then
            if c &&& 0x03 = 0 then
              ((zsb + 2, zsb + 1), (dz0 - 2 - sq * 3, dz0 - 1 - sq * 3))
            else ((zsb + 1, zsb + 2), (dz0 - 1 - sq * 3, dz0 - 2 - sq * 3))
          else ((zsb, zsb), (dz0 - sq * 3, dz0 - sq * 3))
        let wpart : (ℤ × ℤ) × (K × K) :=
          if c &&& 0x08 ≠ 0 then
            ((wsb + 1, wsb + 2), (dw0 - 1 - sq * 3, dw0 - 2 - sq * 3))
          else ((wsb, wsb), (dw0 - sq * 3, dw0 - sq * 3))
        (⟨xpart.1.1, ypart.1.1, zpart.1.1, wpart.1.1,
           xpart.2.1, ypart.2.1, zpart.2.1, wpart.2.1⟩,
         ⟨xpart.1.2, ypart.1.2, zpart.1.2, wpart.1.2,
           xpart.2.2, ypart.2.2, zpart.2.2, wpart.2.2⟩, e2)
    else
      -- One point on each side.
      let c1 := if aBig then aPoint else bPoint
      let c2 := if aBig then bPoint else aPoint
      let xpart : (ℤ × ℤ) × (K × K) :=
        if c1 &&& 0x01 ≠ 0 then
          ((xsb + 2, xsb + 1), (dx0 - 2 - sq * 3, dx0 - 1 - sq * 3))
        else ((xsb, xsb), (dx0 - sq * 3, dx0 - sq * 3))
      let ypart : (ℤ × ℤ) × (K × K) :=
        if c1 &&& 0x02 ≠ 0 then
          if c1 &&& 0x01 = 0 then
            ((ysb + 2, ysb + 1), (dy0 - 2 - sq * 3, dy0 - 1 - sq * 3))
          else ((ysb + 1, ysb + 2), (dy0 - 1 - sq * 3, dy0 - 2 - sq * 3))
        else ((ysb, ysb), (dy0 - sq * 3, dy0 - sq * 3))
      let zpart : (ℤ × ℤ) × (K × K) :=
        if c1 &&& 0x04 ≠ 0 then
          if c1 &&& 0x03 = 0 then
            ((zsb + 2, zsb + 1), (dz0 - 2 - sq * 3, dz0 - 1 - sq * 3))
          else ((zsb + 1, zsb + 2), (dz0 - 1 - sq * 3, dz0 - 2 - sq * 3))
        else ((zsb, zsb), (dz0 - 3 * (sq * 3), dz0 - 3 * (sq * 3)))
      let wpart : (ℤ × ℤ) × (K × K) :=
        if c1 &&& 0x08 ≠ 0 then
          ((wsb + 1, wsb + 2), (dw0 - 1 - sq * 3, dw0 - 2 - sq * 3))
        else ((wsb, wsb), (dw0 - sq * 3, dw0 - sq * 3))
      let e2 : Cand4 K :=
        if c2 &&& 0x01 = 0 then
          ⟨xsb - 1, ysb + 1, zsb + 1, wsb + 1,
            dx0 + 1 - sq * 2, dy0 - 1 - sq * 2, dz0 - 1 - sq * 2, dw0 - 1 - sq * 2⟩
        else if c2 &&& 0x02 = 0 then
          ⟨xsb + 1, ysb - 1, zsb + 1, wsb + 1,
            dx0 - 1 - sq * 2, dy0 + 1 - sq * 2, dz0 - 1 - sq * 2, dw0 - 1 - sq * 2⟩
        else if c2 &&& 0x04 = 0 then
          ⟨xsb + 1, ysb + 1, zsb - 1, wsb + 1,
            dx0 - 1 - sq * 2, dy0 - 1 - sq * 2, dz0 + 1 - sq * 2, dw0 - 1 - sq * 2⟩
        else
          ⟨xsb + 1, ysb + 1, zsb + 1, wsb - 1,
            dx0 - 1 - sq * 2, dy0 - 1 - sq * 2, dz0 - 1 - sq * 2, dw0 + 1 - sq * 2⟩
      (⟨xpart.1.1, ypart.1.1, zpart.1.1, wpart.1.1,
         xpart.2.1, ypart.2.1, zpart.2.1, wpart.2.1⟩,
       ⟨xpart.1.2, ypart.1.2, zpart.1.2, wpart.1.2,
         xpart.2.2, ypart.2.2, zpart.2.2, wpart.2.2⟩, e2)
  [⟨xsb + 1, ysb + 1, zsb + 1, wsb,
     dx0 - 1 - sq * 3, dy0 - 1 - sq * 3, dz0 - 1 - sq * 3, dw0 - sq * 3⟩,
   ⟨xsb + 1, ysb + 1, zsb, wsb + 1,
     dx0 - 1 - sq * 3, dy0 - 1 - sq * 3, dz0 - sq * 3, dw0 - 1 - sq * 3⟩,
   ⟨xsb + 1, ysb, zsb + 1, wsb + 1,
     dx0 - 1 - sq * 3, dy0 - sq * 3, dz0 - 1 - sq * 3, dw0 - 1 - sq * 3⟩,
   ⟨xsb, ysb + 1, zsb + 1, wsb + 1,
     dx0 - sq * 3, dy0 - 1 - sq * 3, dz0 - 1 - sq * 3, dw0 - 1 - sq * 3⟩,
   ⟨xsb + 1, ysb + 1, zsb, wsb,
     dx0 - 1 - sq * 2, dy0 - 1 - sq * 2, dz0 - sq * 2, dw0 - sq * 2⟩,
   ⟨xsb + 1, ysb, zsb + 1, wsb,
     dx0 - 1 - sq * 2, dy0 - sq * 2, dz0 - 1 - sq * 2, dw0 - sq * 2⟩,
   ⟨xsb + 1, ysb, zsb, wsb + 1,
     dx0 - 1 - sq * 2, dy0 - sq * 2, dz0 - sq * 2, dw0 - 1 - sq * 2⟩,
   ⟨xsb, ysb + 1, zsb + 1, wsb,
     dx0 - sq * 2, dy0 - 1 - sq * 2, dz0 - 1 - sq * 2, dw0 - sq * 2⟩,
   ⟨xsb, ysb + 1, zsb, wsb + 1,
     dx0 - sq * 2, dy0 - 1 - sq * 2, dz0 - sq * 2, dw0 - 1 - sq * 2⟩,
   ⟨xsb, ysb, zsb + 1, wsb + 1,
     dx0 - sq * 2, dy0 - sq * 2, dz0 - 1 - sq * 2, dw0 - 1 - sq * 2⟩,
   exts.1, exts.2.1, exts.2.2]

/-- The candidate vertices `Noise<4,T>::eval` considers, in the order
the code accumulates their contributions.  The four outer branches are
the pentachoron at `(0,0,0,0)`, the pentachoron at `(1,1,1,1)` and the
two dispentachoron bands; each derives three extra vertices from the
tie-broken closest-point pair.  (The transcription keeps the code's
literal arithmetic, including `dz0 - 3 * (SQUISH_CONSTANT * 3)` in the
second dispentachoron's mixed-side case.) -/
def candidates4 {K : Type} [LinearOrderedField K] [FloorRing K]
    (STRETCH_CONSTANT SQUISH_CONSTANT : K) (x y z w : K) : List (Cand4 K) :=
  let stretchOffset := (x + y + z + w) * STRETCH_CONSTANT
  let xs := x + stretchOffset
  let ys := y + stretchOffset
  let zs := z + stretchOffset
  let ws := w + stretchOffset
  let xsb : ℤ := ⌊xs⌋
  let ysb : ℤ := ⌊ys⌋
  let zsb : ℤ := ⌊zs⌋
  let wsb : ℤ := ⌊ws⌋
  let squishOffset := ((xsb : K) + (ysb : K) + (zsb : K) + (wsb : K)) * SQUISH_CONSTANT
  let dx0 := x - ((xsb : K) + squishOffset)
  let dy0 := y - ((ysb : K) + squishOffset)
  let dz0 := z - ((zsb : K) + squishOffset)
  let dw0 := w - ((wsb : K) + squishOffset)
  let xins := xs - (xsb : K)
  let yins := ys - (ysb : K)
  let zins := zs - (zsb : K)
  let wins := ws - (wsb : K)
  let inSum := xins + yins + zins + wins
  let sq := SQUISH_CONSTANT
  if inSum ≤ 1 then
    -- Pentachoron at (0,0,0,0).
    let a0 : ℕ × K := (0x01, xins)
    let b0 : ℕ × K := (0x02, yins)
    let ab1 : (ℕ × K) × (ℕ × K) :=
      if a0.2 ≥ b0.2 ∧ zins > b0.2 then (a0, (0x04, zins))
      else if a0.2 < b0.2 ∧ zins > a0.2 then ((0x04, zins), b0)
      else (a0, b0)
    let ab2 : (ℕ × K) × (ℕ × K) :=
      if ab1.1.2 ≥ ab1.2.2 ∧ wins > ab1.2.2 then (ab1.1, (0x08, wins))
      else if ab1.1.2 < ab1.2.2 ∧ wins > ab1.1.2 then ((0x08, wins), ab1.2)
      else ab1
    let aPoint := ab2.1.1
    let aScore := ab2.1.2
    let bPoint := ab2.2.1
    let bScore := ab2.2.2
    let uins := 1 - inSum
    let exts : Cand4 K × Cand4 K × Cand4 K :=
      if uins > aScore ∨ uins > bScore then
        -- (0,0,0,0) is one of the closest two pentachoron vertices.
        let c := if bScore > aScore then bPoint else aPoint
        let xpart : (ℤ × ℤ × ℤ) × (K × K × K) :=
          if c ≠ 0x01 then ((xsb - 1, xsb, xsb), (dx0 + 1, dx0, dx0))
          else ((xsb + 1, xsb + 1, xsb + 1), (dx0 - 1, dx0 - 1, dx0 - 1))
        let ypart : (ℤ × ℤ × ℤ) × (K × K × K) :=
          if c ≠ 0x02 then
            if c ≠ 0x01 then ((ysb, ysb - 1, ysb), (dy0, dy0 + 1, dy0))
            else ((ysb - 1, ysb, ysb), (dy0 + 1, dy0, dy0))
          else ((ysb + 1, ysb + 1, ysb + 1), (dy0 - 1, dy0 - 1, dy0 - 1))
        let zpart : (ℤ × ℤ × ℤ) × (K × K × K) :=
          if c ≠ 0x04 then
            if c &&& 0x03 ≠ 0 then ((zsb, zsb - 1, zsb), (dz0, dz0 + 1, dz0))
            else ((zsb, zsb, zsb - 1), (dz0, dz0, dz0 + 1))
          else ((zsb + 1, zsb + 1, zsb + 1), (dz0 - 1, dz0 - 1, dz0 - 1))
        let wpart : (ℤ × ℤ × ℤ) × (K × K × K) :=
          if c ≠ 0x08 then ((wsb, wsb, wsb - 1), (dw0, dw0, dw0 + 1))
          else ((wsb + 1, wsb + 1, wsb + 1), (dw0 - 1, dw0 - 1, dw0 - 1))
        (⟨xpart.1.1, ypart.1.1, zpart.1.1, wpart.1.1,
          xpart.2.1, ypart.2.1, zpart.2.1, wpart.2.1⟩,
         ⟨xpart.1.2.1, ypart.1.2.1, zpart.1.2.1, wpart.1.2.1,
          xpart.2.2.1, ypart.2.2.1, zpart.2.2.1, wpart.2.2.1⟩,
         ⟨xpart.1.2.2, ypart.1.2.2, zpart.1.2.2, wpart.1.2.2,
          xpart.2.2.2, ypart.2.2.2, zpart.2.2.2, wpart.2.2.2⟩)
      else
        -- (0,0,0,0) is not one of the closest two pentachoron vertices.
        let c := aPoint ||| bPoint
        let xpart : (ℤ × ℤ × ℤ) × (K × K × K) :=
          if c &&& 0x01 = 0 then
            ((xsb, xsb - 1, xsb), (dx0 - sq * 2, dx0 + 1 - sq, dx0 - sq))
          else
            ((xsb + 1, xsb + 1, xsb + 1),
             (dx0 - 1 - sq * 2, dx0 - 1 - sq, dx0 - 1 - sq))
        let ypart : (ℤ × ℤ × ℤ) × (K × K × K) :=
          if c &&& 0x02 = 0 then
            if c &&& 0x01 ≠ 0 then
              ((ysb, ysb - 1, ysb), (dy0 - sq * 2, dy0 + 1 - sq, dy0 - sq))
            else ((ysb, ysb, ysb - 1), (dy0 - sq * 2, dy0 - sq, dy0 + 1 - sq))
          else
            ((ysb + 1, ysb + 1, ysb + 1),
             (dy0 - 1 - sq * 2, dy0 - 1 - sq, dy0 - 1 - sq))
        let zpart : (ℤ × ℤ × ℤ) × (K × K × K) :=
          if c &&& 0x04 = 0 then
            if c &&& 0x03 ≠ 0 then
              ((zsb, zsb - 1, zsb), (dz0 - sq * 2, dz0 + 1 - sq, dz0 - sq))
            else ((zsb, zsb, zsb - 1), (dz0 - sq * 2, dz0 - sq, dz0 + 1 - sq))
          else
            ((zsb + 1, zsb + 1, zsb + 1),
             (dz0 - 1 - sq * 2, dz0 - 1 - sq, dz0 - 1 - sq))
        let wpart : (ℤ × ℤ × ℤ) × (K × K × K) :=
          if c &&& 0x08 = 0 then
            ((wsb, wsb, wsb - 1), (dw0 - sq * 2, dw0 - sq, dw0 + 1 - sq))
          else
            ((wsb + 1, wsb + 1, wsb + 1),
             (dw0 - 1 - sq * 2, dw0 - 1 - sq, dw0 - 1 - sq))
        (⟨xpart.1.1, ypart.1.1, zpart.1.1, wpart.1.1,
          xpart.2.1, ypart.2.1, zpart.2.1, wpart.2.1⟩,
         ⟨xpart.1.2.1, ypart.1.2.1, zpart.1.2.1, wpart.1.2.1,
          xpart.2.2.1, ypart.2.2.1, zpart.2.2.1, wpart.2.2.1⟩,
         ⟨xpart.1.2.2, ypart.1.2.2, zpart.1.2.2, wpart.1.2.2,
          xpart.2.2.2, ypart.2.2.2, zpart.2.2.2, wpart.2.2.2⟩)
    [⟨xsb, ysb, zsb, wsb, dx0, dy0, dz0, dw0⟩,
     ⟨xsb + 1, ysb, zsb, wsb, dx0 - 1 - sq, dy0 - sq, dz0 - sq, dw0 - sq⟩,
     ⟨xsb, ysb + 1, zsb, wsb, dx0 - sq, dy0 - 1 - sq, dz0 - sq, dw0 - sq⟩,
     ⟨xsb, ysb, zsb + 1, wsb, dx0 - sq, dy0 - sq, dz0 - 1 - sq, dw0 - sq⟩,
     ⟨xsb, ysb, zsb, wsb + 1, dx0 - sq, dy0 - sq, dz0 - sq, dw0 - 1 - sq⟩,
     exts.1, exts.2.1, exts.2.2]
  else if inSum ≥ 3 then
    -- Pentachoron at (1,1,1,1).
    let a0 : ℕ × K := (0x0E, xins)
    let b0 : ℕ × K := (0x0D, yins)
    let ab1 : (ℕ × K) × (ℕ × K) :=
      if a0.2 ≤ b0.2 ∧ zins < b0.2 then (a0, (0x0B, zins))
      else if a0.2 > b0.2 ∧ zins < a0.2 then ((0x0B, zins), b0)
      else (a0, b0)
    let ab2 : (ℕ × K) × (ℕ × K) :=
      if ab1.1.2 ≤ ab1.2.2 ∧ wins < ab1.2.2 then (ab1.1, (0x07, wins))
      else if ab1.1.2 > ab1.2.2 ∧ wins < ab1.1.2 then ((0x07, wins), ab1.2)
      else ab1
    let aPoint := ab2.1.1
    let aScore := ab2.1.2
    let bPoint := ab2.2.1
    let bScore := ab2.2.2
    let uins := 4 - inSum
    let exts : Cand4 K × Cand4 K × Cand4 K :=
      if uins < aScore ∨ uins < bScore then
        -- (1,1,1,1) is one of the closest two pentachoron vertices.
        let c := if bScore < aScore then bPoint else aPoint
        let xpart : (ℤ × ℤ × ℤ) × (K × K × K) :=
          if c &&& 0x01 ≠ 0 then
            ((xsb + 2, xsb + 1, xsb + 1),
             (dx0 - 2 - sq * 4, dx0 - 1 - sq * 4, dx0 - 1 - sq * 4))
          else ((xsb, xsb, xsb), (dx0 - sq * 4, dx0 - sq * 4, dx0 - sq * 4))
        let ypart : (ℤ × ℤ × ℤ) × (K × K × K) :=
          if c &&& 0x02 ≠ 0 then
            if c &&& 0x01 ≠ 0 then
              ((ysb + 1, ysb + 2, ysb + 1),
               (dy0 - 1 - sq * 4, dy0 - 2 - sq * 4, dy0 - 1 - sq * 4))
            else
              ((ysb + 2, ysb + 1, ysb + 1),
               (dy0 - 2 - sq * 4, dy0 - 1 - sq * 4, dy0 - 1 - sq * 4))
          else ((ysb, ysb, ysb), (dy0 - sq * 4, dy0 - sq * 4, dy0 - sq * 4))
        let zpart : (ℤ × ℤ × ℤ) × (K × K × K) :=
          if c &&& 0x04 ≠ 0 then
            if c &&& 0x03 ≠ 0x03 then
              if c &&& 0x03 = 0 then
                ((zsb + 2, zsb + 1, zsb + 1),
                 (dz0 - 2 - sq * 4, dz0 - 1 - sq * 4, dz0 - 1 - sq * 4))
              else
                ((zsb + 1, zsb + 2, zsb + 1),
                 (dz0 - 1 - sq * 4, dz0 - 2 - sq * 4, dz0 - 1 - sq * 4))
            else
              ((zsb + 1, zsb + 1, zsb + 2),
               (dz0 - 1 - sq * 4, dz0 - 1 - sq * 4, dz0 - 2 - sq * 4))
          else ((zsb, zsb, zsb), (dz0 - sq * 4, dz0 - sq * 4, dz0 - sq * 4))
        let wpart : (ℤ × ℤ × ℤ) × (K × K × K) :=
          if c &&& 0x08 ≠ 0 then
            ((wsb + 1, wsb + 1, wsb + 2),
             (dw0 - 1 - sq * 4, dw0 - 1 - sq * 4, dw0 - 2 - sq * 4))
          else ((wsb, wsb, wsb), (dw0 - sq * 4, dw0 - sq * 4, dw0 - sq * 4))
        (⟨xpart.1.1, ypart.1.1, zpart.1.1, wpart.1.1,
          xpart.2.1, ypart.2.1, zpart.2.1, wpart.2.1⟩,
         ⟨xpart.1.2.1, ypart.1.2.1, zpart.1.2.1, wpart.1.2.1,
          xpart.2.2.1, ypart.2.2.1, zpart.2.2.1, wpart.2.2.1⟩,
         ⟨xpart.1.2.2, ypart.1.2.2, zpart.1.2.2, wpart.1.2.2,
          xpart.2.2.2, ypart.2.2.2, zpart.2.2.2, wpart.2.2.2⟩)
      else
        -- (1,1,1,1) is not one of the closest two pentachoron vertices.
        let c := aPoint &&& bPoint
        let xpart : (ℤ × ℤ × ℤ) × (K × K × K) :=
          if c &&& 0x01 ≠ 0 then
            ((xsb + 1, xsb + 2, xsb + 1),
             (dx0 - 1 - sq * 2, dx0 - 2 - sq * 3, dx0 - 1 - sq * 3))
          else ((xsb, xsb, xsb), (dx0 - sq * 2, dx0 - sq * 3, dx0 - sq * 3))
        let ypart : (ℤ × ℤ × ℤ) × (K × K × K) :=
          if c &&& 0x02 ≠ 0 then
            if c &&& 0x01 ≠ 0 then
              ((ysb + 1, ysb + 1, ysb + 2),
               (dy0 - 1 - sq * 2, dy0 - 1 - sq * 3, dy0 - 2 - sq * 3))
            else
              ((ysb + 1, ysb + 2, ysb + 1),
               (dy0 - 1 - sq * 2, dy0 - 2 - sq * 3, dy0 - 1 - sq * 3))
          else ((ysb, ysb, ysb), (dy0 - sq * 2, dy0 - sq * 3, dy0 - sq * 3))
        let zpart : (ℤ × ℤ × ℤ) × (K × K × K) :=
          if c &&& 0x04 ≠ 0 then
            if c &&& 0x03 ≠ 0 then
              ((zsb + 1, zsb + 1, zsb + 2),
               (dz0 - 1 - sq * 2, dz0 - 1 - sq * 3, dz0 - 2 - sq * 3))
            else
              ((zsb + 1, zsb + 2, zsb + 1),
               (dz0 - 1 - sq * 2, dz0 - 2 - sq * 3, dz0 - 1 - sq * 3))
          else ((zsb, zsb, zsb), (dz0 - sq * 2, dz0 - sq * 3, dz0 - sq * 3))
        let wpart : (ℤ × ℤ × ℤ) × (K × K × K) :=
          if c &&& 0x08 ≠ 0 then
            ((wsb + 1, wsb + 1, wsb + 2),
             (dw0 - 1 - sq * 2, dw0 - 1 - sq * 3, dw0 - 2 - sq * 3))
          else ((wsb, wsb, wsb), (dw0 - sq * 2, dw0 - sq * 3, dw0 - sq * 3))
        (⟨xpart.1.1, ypart.1.1, zpart.1.1, wpart.1.1,
          xpart.2.1, ypart.2.1, zpart.2.1, wpart.2.1⟩,
         ⟨xpart.1.2.1, ypart.1.2.1, zpart.1.2.1, wpart.1.2.1,
          xpart.2.2.1, ypart.2.2.1, zpart.2.2.1, wpart.2.2.1⟩,
         ⟨xpart.1.2.2, ypart.1.2.2, zpart.1.2.2, wpart.1.2.2,
          xpart.2.2.2, ypart.2.2.2, zpart.2.2.2, wpart.2.2.2⟩)
    [⟨xsb + 1, ysb + 1, zsb + 1, wsb,
       dx0 - 1 - sq * 3, dy0 - 1 - sq * 3, dz0 - 1 - sq * 3, dw0 - sq * 3⟩,
     ⟨xsb + 1, ysb + 1, zsb, wsb + 1,
       dx0 - 1 - sq * 3, dy0 - 1 - sq * 3, dz0 - sq * 3, dw0 - 1 - sq * 3⟩,
     ⟨xsb + 1, ysb, zsb + 1, wsb + 1,
       dx0 - 1 - sq * 3, dy0 - sq * 3, dz0 - 1 - sq * 3, dw0 - 1 - sq * 3⟩,
     ⟨xsb, ysb + 1, zsb + 1, wsb + 1,
       dx0 - sq * 3, dy0 - 1 - sq * 3, dz0 - 1 - sq * 3, dw0 - 1 - sq * 3⟩,
     ⟨xsb + 1, ysb + 1, zsb + 1, wsb + 1,
       dx0 - 1 - sq * 4, dy0 - 1 - sq * 4, dz0 - 1 - sq * 4, dw0 - 1 - sq * 4⟩,
     exts.1, exts.2.1, exts.2.2]
  else if inSum ≤ 2 then
    -- First dispentachoron (rectified 4-simplex).
    candidates4MidA STRETCH_CONSTANT SQUISH_CONSTANT x y z w
  else
    -- Second dispentachoron (rectified 4-simplex).
    candidates4MidB STRETCH_CONSTANT SQUISH_CONSTANT x y z w

/-- `Noise<4,T>::eval` with the extrapolation primitive abstracted. -/
def eval4With {K : Type} [LinearOrderedField K] [FloorRing K]
    (STRETCH_CONSTANT SQUISH_CONSTANT NORM_CONSTANT : K)
    (extrap : ℤ → ℤ → ℤ → ℤ → K → K → K → K → K) (x y z w : K) : K :=
  ((candidates4 STRETCH_CONSTANT SQUISH_CONSTANT x y z w).foldl
    (fun acc c =>
      acc + max (2 - (c.dx * c.dx + c.dy * c.dy + c.dz * c.dz + c.dw * c.dw)) 0 ^ 4
        * extrap c.xsv c.ysv c.zsv c.wsv c.dx c.dy c.dz c.dw) 0) / NORM_CONSTANT

/-- `STRETCH_CONSTANT` of the 4D evaluator: `(1/sqrt(4+1) - 1) * 0.25`. -/
noncomputable def STRETCH_CONSTANT_4D : ℝ := (1 / Real.sqrt (4 + 1) - 1) * 0.25

/-- `SQUISH_CONSTANT` of the 4D evaluator: `(sqrt(4+1) - 1) * 0.25`. -/
noncomputable def SQUISH_CONSTANT_4D : ℝ := (Real.sqrt (4 + 1) - 1) * 0.25

/-- `NORM_CONSTANT` of the 4D evaluator. -/
def NORM_CONSTANT_4D : ℝ := 30

/-- `Noise<4,T>::eval` for an instance with permutation table `perm`. -/
noncomputable def Noise4.eval (perm : Fin 256 → ℤ) (x y z w : ℝ) : ℝ :=
  eval4With STRETCH_CONSTANT_4D SQUISH_CONSTANT_4D NORM_CONSTANT_4D
    (Noise4.extrapolate perm) x y z w

/-- C's truncated remainder followed by the code's negativity fix-up is
the Euclidean remainder. -/
theorem tmod_fixup_eq_emod (a : ℤ) (n : ℕ) :
    (let r := Int.tmod a (n + 1); if r < 0 then r + (n + 1) else r)
      = a % (n + 1) := by
  have hb : (0 : ℤ) < (n : ℤ) + 1 := by positivity
  have hup : Int.tmod a ((n : ℤ) + 1) < (n : ℤ) + 1 := Int.tmod_lt_of_pos a hb
  have hlow : -((n : ℤ) + 1) < Int.tmod a ((n : ℤ) + 1) := by
    rcases le_or_lt 0 a with ha | ha
    · have := Int.tmod_nonneg ((n : ℤ) + 1) ha
      linarith
    · have hna : 0 ≤ -a := by linarith
      have h1 : Int.tmod (-a) ((n : ℤ) + 1) < (n : ℤ) + 1 :=
        Int.tmod_lt_of_pos (-a) hb
      have h2 : Int.tmod (-a) ((n : ℤ) + 1) = -Int.tmod a ((n : ℤ) + 1) := by
        rw [Int.tmod_def, Int.tmod_def, Int.neg_tdiv]
        ring
      rw [h2] at h1
      linarith
  have hsum : ((n : ℤ) + 1) * (a.tdiv ((n : ℤ) + 1)) + Int.tmod a ((n : ℤ) + 1) = a :=
    Int.tdiv_add_tmod a ((n : ℤ) + 1)
  by_cases hneg : Int.tmod a ((n : ℤ) + 1) < 0
  · simp only [hneg, if_true]
    have key : a / ((n : ℤ) + 1) = a.tdiv ((n : ℤ) + 1) - 1 ∧
        a % ((n : ℤ) + 1) = Int.tmod a ((n : ℤ) + 1) + ((n : ℤ) + 1) := by
      rw [Int.ediv_emod_unique hb]
      refine ⟨?_, by linarith, by linarith⟩
      have : ((n : ℤ) + 1) * (a.tdiv ((n : ℤ) + 1) - 1)
          = ((n : ℤ) + 1) * (a.tdiv ((n : ℤ) + 1)) - ((n : ℤ) + 1) := by ring
      rw [this]
      linarith
    exact key.2.symm
  · simp only [hneg, if_false]
    push_neg at hneg
    have key : a / ((n : ℤ) + 1) = a.tdiv ((n : ℤ) + 1) ∧
        a % ((n : ℤ) + 1) = Int.tmod a ((n : ℤ) + 1) := by
      rw [Int.ediv_emod_unique hb]
      exact ⟨by linarith, hneg, hup⟩
    exact key.2.symm

/-- The code's draw equals the specification's draw. -/
theorem drawR_eq_drawSpec (seed : ℤ) (i : ℕ) : drawR seed i = drawSpec seed i := by
  have h := tmod_fixup_eq_emod (wrap64 (seed + 31)) i
  simpa [drawR, drawSpec] using h

/-- The specification's draw lies in `[0, i]`. -/
theorem drawSpec_mem_range (seed : ℤ) (i : ℕ) :
    0 ≤ drawSpec seed i ∧ drawSpec seed i ≤ i := by
  have hb : (0 : ℤ) < (i : ℤ) + 1 := by positivity
  constructor
  · exact Int.emod_nonneg _ (by positivity)
  · have := Int.emod_lt_of_pos (wrap64 (seed + 31)) hb
    have h' : drawSpec seed i < (i : ℤ) + 1 := by simpa [drawSpec] using this
    omega

/-- The natural-number draws agree and are bounded by the index. -/
theorem drawRN_eq_drawSpecN : drawRN = drawSpecN := by
  funext seed i
  simp [drawRN, drawSpecN, drawR_eq_drawSpec]

theorem drawSpecN_le (seed : ℤ) (i : ℕ) : drawSpecN seed i ≤ i := by
  have h := drawSpec_mem_range seed i
  simp only [drawSpecN]
  omega

/-- Indices above the loop counter are never written by the shuffle. -/
theorem shuffleAux_untouched (draw : ℤ → ℕ → ℕ) :
    ∀ (i : ℕ) (x : ℤ) (source perm : ℕ → ℕ) (j : ℕ), i < j →
      shuffleAux draw i x source perm j = perm j := by
  intro i
  induction i with
  | zero =>
      intro x source perm j hj
      simp only [shuffleAux]
      exact Function.update_noteq (by omega) _ _
  | succ k ih =>
      intro x source perm j hj
      simp only [shuffleAux]
      rw [ih _ _ _ _ (by omega)]
      exact Function.update_noteq (by omega) _ _

/-- Mapping an updated function over a duplicate-free multiset containing
the updated point replaces exactly one occurrence of its old value. -/
theorem map_update_of_mem_nodup (s : Multiset ℕ) (hs : s.Nodup) (r : ℕ)
    (hr : r ∈ s) (f : ℕ → ℕ) (v : ℕ) :
    s.map (Function.update f r v) = v ::ₘ (s.erase r).map f := by
  conv_lhs => rw [← Multiset.cons_erase hr]
  rw [Multiset.map_cons, Function.update_same]
  congr 1
  refine Multiset.map_congr rfl ?_
  intro x hx
  exact Function.update_noteq ((hs.mem_erase_iff).1 hx).1 _ _

/-- Fisher–Yates invariant: as long as every draw stays within `[0, i]`,
the values the shuffle writes into `perm[0..i]` are a rearrangement of
the values `source[0..i]` held when the loop reaches index `i`. -/
theorem shuffleAux_map_range (draw : ℤ → ℕ → ℕ)
    (hdraw : ∀ x i, draw x i ≤ i) :
    ∀ (i : ℕ) (x : ℤ) (source perm : ℕ → ℕ),
      Multiset.map (shuffleAux draw i x source perm) (Multiset.range (i + 1))
        = Multiset.map source (Multiset.range (i + 1)) := by
  intro i
  induction i with
  | zero =>
      intro x source perm
      have hr : draw (LCG_STEP x) 0 = 0 := Nat.le_zero.mp (hdraw _ 0)
      simp [shuffleAux, Multiset.range_succ, hr]
  | succ k ih =>
      intro x source perm
      have hstep :
          shuffleAux draw (k + 1) x source perm
            = shuffleAux draw k (LCG_STEP x)
                (Function.update source (draw (LCG_STEP x) (k + 1)) (source (k + 1)))
                (Function.update perm (k + 1)
                  (source (draw (LCG_STEP x) (k + 1)))) := by
        simp [shuffleAux]
      set x' := LCG_STEP x with hx'
      set r := draw x' (k + 1) with hrdef
      have hr_le : r ≤ k + 1 := hdraw x' (k + 1)
      rw [hstep]
      rw [Multiset.range_succ, Multiset.map_cons, Multiset.map_cons]
      rw [shuffleAux_untouched draw k _ _ _ _ (by omega), Function.update_same]
      rw [ih]
      rcases Nat.lt_or_ge r (k + 1) with hlt | hge
      · have hrmem : r ∈ Multiset.range (k + 1) := Multiset.mem_range.mpr hlt
        rw [map_update_of_mem_nodup _ (Multiset.nodup_range _) _ hrmem]
        conv_rhs => rw [← Multiset.cons_erase hrmem, Multiset.map_cons]
        rw [Multiset.cons_swap]
      · have hreq : r = k + 1 := le_antisymm hr_le hge
        rw [hreq, Function.update_eq_self]

/-- C1: the seeded constructor's shuffle is exactly the specified
Fisher–Yates shuffle over the fixed LCG — the truncated-`%`-plus-fixup
draw coincides with the Euclidean draw, which always lies in `[0, i]`,
so the resulting table is a pure, platform-independent function of the
seed. -/
theorem buildPerm_eq_buildPermSpec :
    (∀ seed : ℤ, buildPerm seed = buildPermSpec seed) ∧
      (∀ (seed : ℤ) (i : ℕ), 0 ≤ drawSpec seed i ∧ drawSpec seed i ≤ i) := by
  constructor
  · intro seed
    unfold buildPerm buildPermSpec
    rw [drawRN_eq_drawSpecN]
  · exact drawSpec_mem_range

/-- Adding a multiple of 256 to the argument does not change the
low-byte index (`v & 0xFF`). -/
theorem mask255_add_mul (v k : ℤ) : mask255 (v + 256 * k) = mask255 v := by
  unfold mask255
  congr 1
  rw [Int.add_mul_emod_self_left]

/-- Variant of `mask255_add_mul` with the multiple added inside a sum. -/
theorem mask255_add_right (p y k : ℤ) :
    mask255 (p + (y + 256 * k)) = mask255 (p + y) := by
  have h : p + (y + 256 * k) = p + y + 256 * k := by ring
  rw [h, mask255_add_mul]

/-- Accumulating `acc + f c` over a list is adding the sum of the mapped
list. -/
theorem foldl_add_eq_sum {α K : Type} [AddCommMonoid K] (f : α → K)
    (l : List α) (init : K) :
    l.foldl (fun acc c => acc + f c) init = init + (l.map f).sum := by
  induction l generalizing init with
  | nil => simp
  | cons a t ih => simp [ih, add_assoc]

/-- A kernel factor vanishes as soon as the attenuation reaches 2. -/
theorem kernel_eq_zero_of_two_le {K : Type} [LinearOrderedField K]
    {attn : K} (h : 2 ≤ attn) (e : K) : max (2 - attn) 0 ^ 4 * e = 0 := by
  have hm : max (2 - attn) 0 = 0 := max_eq_right (by linarith)
  rw [hm]
  ring

/-- Kernel-weighted accumulations agree whenever the two gradient terms
agree on every list element of attenuation below 2. -/
theorem foldl_kernel_congr {α K : Type} [LinearOrderedField K]
    (attnOf : α → K) (e1 e2 : α → K) (l : List α)
    (h : ∀ c ∈ l, attnOf c < 2 → e1 c = e2 c) (init : K) :
    l.foldl (fun acc c => acc + max (2 - attnOf c) 0 ^ 4 * e1 c) init
      = l.foldl (fun acc c => acc + max (2 - attnOf c) 0 ^ 4 * e2 c) init := by
  induction l generalizing init with
  | nil => rfl
  | cons a t ih =>
      simp only [List.foldl_cons]
      rcases lt_or_ge (attnOf a) 2 with hlt | hge
      · rw [h a (List.mem_cons_self a t) hlt]
        exact ih (fun c hc => h c (List.mem_cons_of_mem a hc)) _
      · rw [kernel_eq_zero_of_two_le hge, kernel_eq_zero_of_two_le hge]
        exact ih (fun c hc => h c (List.mem_cons_of_mem a hc)) _

/-- The legacy header's guarded accumulation step (`if (attn < 2.0)
value += pow(2.0 - attn, 4) * e`) is the clamped-kernel step. -/
theorem guarded_step_eq_kernel_step {K : Type} [LinearOrderedField K]
    (attn e acc : K) :
    (if attn < 2 then acc + (2 - attn) ^ 4 * e else acc)
      = acc + max (2 - attn) 0 ^ 4 * e := by
  by_cases h : attn < 2
  · rw [if_pos h, max_eq_left (by linarith)]
  · rw [if_neg h, kernel_eq_zero_of_two_le (by linarith) e, add_zero]

/-- A guarded accumulation over a whole list equals the clamped-kernel
accumulation. -/
theorem foldl_guarded_eq_kernel {α K : Type} [LinearOrderedField K]
    (attnOf : α → K) (e : α → K) (l : List α) (init : K) :
    l.foldl
        (fun acc c => if attnOf c < 2 then acc + (2 - attnOf c) ^ 4 * e c else acc)
        init
      = l.foldl (fun acc c => acc + max (2 - attnOf c) 0 ^ 4 * e c) init := by
  induction l generalizing init with
  | nil => rfl
  | cons a t ih =>
      simp only [List.foldl_cons]
      rw [guarded_step_eq_kernel_step]
      exact ih _

/-- The guarded accumulation of the legacy 3D evaluator equals the
clamped-kernel accumulation over the same candidates. -/
theorem evalHHWith_eq_kernel_foldl (extrap : ℤ → ℤ → ℤ → ℚ → ℚ → ℚ → ℚ)
    (x y z : ℚ) :
    evalHHWith extrap x y z
      = ((candidates3 x y z).foldl
          (fun acc c =>
            acc + max (2 - (c.dx * c.dx + c.dy * c.dy + c.dz * c.dz)) 0 ^ 4
              * extrap c.xsv c.ysv c.zsv c.dx c.dy c.dz) 0) / NORM_CONSTANT_3D := by
  unfold evalHHWith
  have h := foldl_guarded_eq_kernel
    (fun c : Cand3 => c.dx * c.dx + c.dy * c.dy + c.dz * c.dz)
    (fun c : Cand3 => extrap c.xsv c.ysv c.zsv c.dx c.dy c.dz)
    (candidates3 x y z) 0
  exact congrArg (· / NORM_CONSTANT_3D) h

set_option maxRecDepth 4000 in
/-- The flat 2D gradient array read at a masked hash is the vector
numbered by half the masked hash. -/
theorem gradients2_flat_vec : ∀ m : Fin 256,
    gradients2.getD (m.val &&& 0x0E) 0
        = (gradients2Vectors.getD ((m.val &&& 0x0E) / 2) (0, 0)).1 ∧
      gradients2.getD ((m.val &&& 0x0E) + 1) 0
        = (gradients2Vectors.getD ((m.val &&& 0x0E) / 2) (0, 0)).2 := by
  decide

set_option maxRecDepth 4000 in
/-- The flat 3D gradient array read at `3 * m` is the vector numbered
`m`. -/
theorem gradients3_flat_vec : ∀ m : Fin 24,
    gradients3.getD (m.val * 3) 0
        = (gradients3Vectors.getD m.val (0, 0, 0)).1 ∧
      gradients3.getD (m.val * 3 + 1) 0
        = (gradients3Vectors.getD m.val (0, 0, 0)).2.1 ∧
      gradients3.getD (m.val * 3 + 2) 0
        = (gradients3Vectors.getD m.val (0, 0, 0)).2.2 := by
  decide

set_option maxRecDepth 8000 in
/-- The flat 4D gradient array read at a masked hash is the vector
numbered by a quarter of the masked hash. -/
theorem gradients4_flat_vec : ∀ m : Fin 256,
    gradients4.getD (m.val &&& 0xFC) 0
        = (gradients4Vectors.getD ((m.val &&& 0xFC) / 4) (0, 0, 0, 0)).1 ∧
      gradients4.getD ((m.val &&& 0xFC) + 1) 0
        = (gradients4Vectors.getD ((m.val &&& 0xFC) / 4) (0, 0, 0, 0)).2.1 ∧
      gradients4.getD ((m.val &&& 0xFC) + 2) 0
        = (gradients4Vectors.getD ((m.val &&& 0xFC) / 4) (0, 0, 0, 0)).2.2.1 ∧
      gradients4.getD ((m.val &&& 0xFC) + 3) 0
        = (gradients4Vectors.getD ((m.val &&& 0xFC) / 4) (0, 0, 0, 0)).2.2.2 := by
  decide

/-- C3: in every supported dimension, `extrapolate` folds the lattice
coordinates through the table left-to-right to a hash, selects a
gradient vector (by `& 0x0E` in 2D, by `& 0xFC` in 4D, and through
`permGradIndex[i] = (perm[i] mod 24) * 3` in 3D) and returns the
selected vector's dot product with the offset vector; with table
entries in `[0, 255]` the hash is a table value in `[0, 255]`. -/
theorem extrapolate_eq_gradient_dot :
    (∀ (K : Type) [LinearOrderedField K] (perm : Fin 256 → ℤ)
        (xsb ysb : ℤ) (dx dy : K),
        Noise2.extrapolate perm xsb ysb dx dy
          = Noise2.extrapolateSpec perm xsb ysb dx dy) ∧
    (∀ (inst : Noise3),
        (∀ i, inst.permGradIndex i = Int.tmod (inst.perm i) 24 * 3) →
        (∀ i, 0 ≤ inst.perm i ∧ inst.perm i < 256) →
        ∀ (xsb ysb zsb : ℤ) (dx dy dz : ℚ),
          inst.extrapolate xsb ysb zsb dx dy dz
            = Noise3.extrapolateSpec inst.perm xsb ysb zsb dx dy dz) ∧
    (∀ (K : Type) [LinearOrderedField K] (perm : Fin 256 → ℤ)
        (xsb ysb zsb wsb : ℤ) (dx dy dz dw : K),
        Noise4.extrapolate perm xsb ysb zsb wsb dx dy dz dw
          = Noise4.extrapolateSpec perm xsb ysb zsb wsb dx dy dz dw) ∧
    (∀ (perm : Fin 256 → ℤ), (∀ i, 0 ≤ perm i ∧ perm i < 256) →
        ∀ v : ℤ, 0 ≤ perm (mask255 v) ∧ perm (mask255 v) < 256) := by
  refine ⟨?_, ?_, ?_, ?_⟩
  · intro K _ perm xsb ysb dx dy
    simp only [Noise2.extrapolate, Noise2.extrapolateSpec, Noise2.gradIndex]
    obtain ⟨h1, h2⟩ :=
      gradients2_flat_vec (mask255 (perm (mask255 (perm (mask255 xsb) + ysb))))
    rw [h1, h2]
  · intro inst hderived hrange xsb ysb zsb dx dy dz
    simp only [Noise3.extrapolate, Noise3.gradIndex, Noise3.extrapolateSpec]
    set h := mask255 (inst.perm (mask255 (inst.perm (mask255 xsb) + ysb)) + zsb)
      with hhdef
    obtain ⟨hp0, hp256⟩ := hrange h
    rw [hderived h]
    rw [Int.tmod_eq_emod hp0 (by norm_num)]
    have hm0 : 0 ≤ inst.perm h % 24 := Int.emod_nonneg _ (by norm_num)
    have hm24 : inst.perm h % 24 < 24 := Int.emod_lt_of_pos _ (by norm_num)
    have htoNat : (inst.perm h % 24 * 3).toNat = (inst.perm h % 24).toNat * 3 := by
      omega
    rw [htoNat]
    have hmlt : (inst.perm h % 24).toNat < 24 := by omega
    obtain ⟨h1, h2, h3⟩ := gradients3_flat_vec ⟨(inst.perm h % 24).toNat, hmlt⟩
    rw [h1, h2, h3]
  · intro K _ perm xsb ysb zsb wsb dx dy dz dw
    simp only [Noise4.extrapolate, Noise4.extrapolateSpec, Noise4.gradIndex]
    obtain ⟨h1, h2, h3, h4⟩ := gradients4_flat_vec
      (mask255 (perm (mask255 (perm (mask255 (perm (mask255 (perm (mask255 xsb)
        + ysb)) + zsb)) + wsb))))
    rw [h1, h2, h3, h4]
  · intro perm hrange v
    exact hrange (mask255 v)

/-- Witness for C3: the 3D refinement applied to the all-zero table at
the origin. -/
theorem extrapolate_eq_gradient_dot_witness :
    (Noise3.ofTable (fun _ => 0)).extrapolate 0 0 0 1 1 1
      = Noise3.extrapolateSpec (Noise3.ofTable (fun _ => 0)).perm 0 0 0 1 1 1 :=
  extrapolate_eq_gradient_dot.2.1 (Noise3.ofTable (fun _ => 0))
    (fun _ => rfl) (fun _ => ⟨le_refl 0, show (0 : ℤ) < 256 by norm_num⟩) 0 0 0 1 1 1

/-- C2: for every seed, the constructed table holds each of the values
`0, …, 255` at exactly one of the indices `0, …, 255`. -/
theorem buildPerm_bijective :
    ∀ seed : ℤ,
      Multiset.map (buildPerm seed) (Multiset.range 256) = Multiset.range 256 := by
  intro seed
  have hdraw : ∀ x i, drawRN x i ≤ i := by
    intro x i
    rw [drawRN_eq_drawSpecN]
    exact drawSpecN_le x i
  have h := shuffleAux_map_range drawRN hdraw 255
    (LCG_STEP (LCG_STEP (LCG_STEP seed))) id (fun _ => 0)
  have h255 : (255 : ℕ) + 1 = 256 := rfl
  rw [h255, Multiset.map_id] at h
  exact h

/-- Every candidate the 2D branch block selects carries an offset
consistent with the origin offset. -/
theorem cand2Core_consistentOffset {K : Type} [LinearOrderedField K]
    (SQ : K) (xsb ysb : ℤ) (xins yins dx0 dy0 : K) :
    ∀ c ∈ candidates2Core SQ xsb ysb xins yins dx0 dy0,
      c.consistentOffset SQ xsb ysb dx0 dy0 := by
  intro c hc
  simp only [candidates2Core] at hc
  split_ifs at hc <;>
    simp only [List.mem_cons, List.not_mem_nil, or_false] at hc <;>
    rcases hc with rfl | rfl | rfl | rfl <;>
    exact ⟨by push_cast; ring, by push_cast; ring⟩

/-- Both extra vertices of the 3D middle band carry consistent offsets
(for any tie-break data). -/
theorem exts3Mid_consistentOffset (xsb ysb zsb : ℤ) (dx0 dy0 dz0 : ℚ)
    (aPoint bPoint : ℕ) (aFurther bFurther : Bool) :
    (exts3Mid xsb ysb zsb dx0 dy0 dz0 aPoint bPoint aFurther
        bFurther).1.consistentOffset xsb ysb zsb dx0 dy0 dz0 ∧
    (exts3Mid xsb ysb zsb dx0 dy0 dz0 aPoint bPoint aFurther
        bFurther).2.consistentOffset xsb ysb zsb dx0 dy0 dz0 := by
  simp only [exts3Mid]
  split_ifs <;>
    refine ⟨⟨?_, ?_, ?_⟩, ⟨?_, ?_, ?_⟩⟩ <;>
    push_cast <;> ring

/-- The extra vertices of the origin tetrahedron's near case carry
consistent offsets whenever the selected byte is one of the three
single-coordinate vertices, as it always is in the evaluator. -/
theorem exts3BotNear_consistentOffset (xsb ysb zsb : ℤ)
    (dx0 dy0 dz0 : ℚ) (c : ℕ) (h : c = 1 ∨ c = 2 ∨ c = 4) :
    (exts3BotNear xsb ysb zsb dx0 dy0 dz0 c).1.consistentOffset
        xsb ysb zsb dx0 dy0 dz0 ∧
    (exts3BotNear xsb ysb zsb dx0 dy0 dz0 c).2.consistentOffset
        xsb ysb zsb dx0 dy0 dz0 := by
  rcases h with rfl | rfl | rfl <;>
    simp only [exts3BotNear] <;>
    norm_num <;>
    refine ⟨⟨?_, ?_, ?_⟩, ⟨?_, ?_, ?_⟩⟩ <;>
    push_cast <;> ring

/-- The extra vertices of the origin tetrahedron's far case carry
consistent offsets whenever the union byte has exactly two bits set, as
it always does in the evaluator. -/
theorem exts3BotFar_consistentOffset (xsb ysb zsb : ℤ)
    (dx0 dy0 dz0 : ℚ) (c : ℕ) (h : c = 3 ∨ c = 5 ∨ c = 6) :
    (exts3BotFar xsb ysb zsb dx0 dy0 dz0 c).1.consistentOffset
        xsb ysb zsb dx0 dy0 dz0 ∧
    (exts3BotFar xsb ysb zsb dx0 dy0 dz0 c).2.consistentOffset
        xsb ysb zsb dx0 dy0 dz0 := by
  rcases h with rfl | rfl | rfl
  · simp only [exts3BotFar]
    rw [if_pos (show (3 &&& 0x01 : ℕ) ≠ 0 by decide),
        if_pos (show (3 &&& 0x02 : ℕ) ≠ 0 by decide),
        if_neg (show ¬((3 &&& 0x04 : ℕ) ≠ 0) by decide)]
    exact ⟨⟨by push_cast; ring, by push_cast; ring, by push_cast; ring⟩,
      ⟨by push_cast; ring, by push_cast; ring, by push_cast; ring⟩⟩
  · simp only [exts3BotFar]
    rw [if_pos (show (5 &&& 0x01 : ℕ) ≠ 0 by decide),
        if_neg (show ¬((5 &&& 0x02 : ℕ) ≠ 0) by decide),
        if_pos (show (5 &&& 0x04 : ℕ) ≠ 0 by decide)]
    exact ⟨⟨by push_cast; ring, by push_cast; ring, by push_cast; ring⟩,
      ⟨by push_cast; ring, by push_cast; ring, by push_cast; ring⟩⟩
  · simp only [exts3BotFar]
    rw [if_neg (show ¬((6 &&& 0x01 : ℕ) ≠ 0) by decide),
        if_pos (show (6 &&& 0x02 : ℕ) ≠ 0 by decide),
        if_pos (show (6 &&& 0x04 : ℕ) ≠ 0 by decide)]
    exact ⟨⟨by push_cast; ring, by push_cast; ring, by push_cast; ring⟩,
      ⟨by push_cast; ring, by push_cast; ring, by push_cast; ring⟩⟩

/-- The extra vertices of the far tetrahedron's close case carry
consistent offsets whenever the selected byte has exactly two bits set,
as it always does in the evaluator. -/
theorem exts3TopClose_consistentOffset (xsb ysb zsb : ℤ)
    (dx0 dy0 dz0 : ℚ) (c : ℕ) (h : c = 3 ∨ c = 5 ∨ c = 6) :
    (exts3TopClose xsb ysb zsb dx0 dy0 dz0 c).1.consistentOffset
        xsb ysb zsb dx0 dy0 dz0 ∧
    (exts3TopClose xsb ysb zsb dx0 dy0 dz0 c).2.consistentOffset
        xsb ysb zsb dx0 dy0 dz0 := by
  rcases h with rfl | rfl | rfl
  · simp only [exts3TopClose]
    rw [if_pos (show (3 &&& 0x01 : ℕ) ≠ 0 by decide),
        if_pos (show (3 &&& 0x02 : ℕ) ≠ 0 by decide),
        if_pos (show (3 &&& 0x01 : ℕ) ≠ 0 by decide),
        if_neg (show ¬((3 &&& 0x04 : ℕ) ≠ 0) by decide)]
    exact ⟨⟨by push_cast; ring, by push_cast; ring, by push_cast; ring⟩,
      ⟨by push_cast; ring, by push_cast; ring, by push_cast; ring⟩⟩
  · simp only [exts3TopClose]
    rw [if_pos (show (5 &&& 0x01 : ℕ) ≠ 0 by decide),
        if_neg (show ¬((5 &&& 0x02 : ℕ) ≠ 0) by decide),
        if_pos (show (5 &&& 0x04 : ℕ) ≠ 0 by decide)]
    exact ⟨⟨by push_cast; ring, by push_cast; ring, by push_cast; ring⟩,
      ⟨by push_cast; ring, by push_cast; ring, by push_cast; ring⟩⟩
  · simp only [exts3TopClose]
    rw [if_neg (show ¬((6 &&& 0x01 : ℕ) ≠ 0) by decide),
        if_pos (show (6 &&& 0x02 : ℕ) ≠ 0 by decide),
        if_neg (show ¬((6 &&& 0x01 : ℕ) ≠ 0) by decide),
        if_pos (show (6 &&& 0x04 : ℕ) ≠ 0 by decide)]
    exact ⟨⟨by push_cast; ring, by push_cast; ring, by push_cast; ring⟩,
      ⟨by push_cast; ring, by push_cast; ring, by push_cast; ring⟩⟩

/-- The extra vertices of the far tetrahedron's far case carry
consistent offsets whenever the intersection byte has exactly one bit
set, as it always does in the evaluator. -/
theorem exts3TopFar_consistentOffset (xsb ysb zsb : ℤ)
    (dx0 dy0 dz0 : ℚ) (c : ℕ) (h : c = 1 ∨ c = 2 ∨ c = 4) :
    (exts3TopFar xsb ysb zsb dx0 dy0 dz0 c).1.consistentOffset
        xsb ysb zsb dx0 dy0 dz0 ∧
    (exts3TopFar xsb ysb zsb dx0 dy0 dz0 c).2.consistentOffset
        xsb ysb zsb dx0 dy0 dz0 := by
  rcases h with rfl | rfl | rfl
  · simp only [exts3TopFar]
    rw [if_pos (show (1 &&& 0x01 : ℕ) ≠ 0 by decide),
        if_neg (show ¬((1 &&& 0x02 : ℕ) ≠ 0) by decide),
        if_neg (show ¬((1 &&& 0x04 : ℕ) ≠ 0) by decide)]
    exact ⟨⟨by push_cast; ring, by push_cast; ring, by push_cast; ring⟩,
      ⟨by push_cast; ring, by push_cast; ring, by push_cast; ring⟩⟩
  · simp only [exts3TopFar]
    rw [if_neg (show ¬((2 &&& 0x01 : ℕ) ≠ 0) by decide),
        if_pos (show (2 &&& 0x02 : ℕ) ≠ 0 by decide),
        if_neg (show ¬((2 &&& 0x04 : ℕ) ≠ 0) by decide)]
    exact ⟨⟨by push_cast; ring, by push_cast; ring, by push_cast; ring⟩,
      ⟨by push_cast; ring, by push_cast; ring, by push_cast; ring⟩⟩
  · simp only [exts3TopFar]
    rw [if_neg (show ¬((4 &&& 0x01 : ℕ) ≠ 0) by decide),
        if_neg (show ¬((4 &&& 0x02 : ℕ) ≠ 0) by decide),
        if_pos (show (4 &&& 0x04 : ℕ) ≠ 0 by decide)]
    exact ⟨⟨by push_cast; ring, by push_cast; ring, by push_cast; ring⟩,
      ⟨by push_cast; ring, by push_cast; ring, by push_cast; ring⟩⟩

/-- Every candidate the 3D branch block selects carries an offset
consistent with the origin offset. -/
theorem cand3Core_consistentOffset (xsb ysb zsb : ℤ)
    (xins yins zins dx0 dy0 dz0 : ℚ) :
    ∀ c ∈ candidates3Core xsb ysb zsb xins yins zins dx0 dy0 dz0,
      c.consistentOffset xsb ysb zsb dx0 dy0 dz0 := by
  intro c hc
  simp only [candidates3Core] at hc
  split at hc
  · -- Octahedral middle band.
    simp only [List.mem_cons, List.not_mem_nil, or_false] at hc
    rcases hc with rfl | rfl | rfl | rfl | rfl | rfl | rfl | rfl
    · exact ⟨by push_cast; ring, by push_cast; ring, by push_cast; ring⟩
    · exact ⟨by push_cast; ring, by push_cast; ring, by push_cast; ring⟩
    · exact ⟨by push_cast; ring, by push_cast; ring, by push_cast; ring⟩
    · exact ⟨by push_cast; ring, by push_cast; ring, by push_cast; ring⟩
    · exact ⟨by push_cast; ring, by push_cast; ring, by push_cast; ring⟩
    · exact ⟨by push_cast; ring, by push_cast; ring, by push_cast; ring⟩
    · exact (exts3Mid_consistentOffset _ _ _ _ _ _ _ _ _ _).1
    · exact (exts3Mid_consistentOffset _ _ _ _ _ _ _ _ _ _).2
  split at hc
  · -- Tetrahedron at (0,0,0).
    simp only [List.mem_cons, List.not_mem_nil, or_false] at hc
    rcases hc with rfl | rfl | rfl | rfl | rfl | rfl
    · exact ⟨by push_cast; ring, by push_cast; ring, by push_cast; ring⟩
    · exact ⟨by push_cast; ring, by push_cast; ring, by push_cast; ring⟩
    · exact ⟨by push_cast; ring, by push_cast; ring, by push_cast; ring⟩
    · exact ⟨by push_cast; ring, by push_cast; ring, by push_cast; ring⟩
    · split_ifs <;>
        norm_num <;>
        first
          | exact (exts3BotNear_consistentOffset _ _ _ _ _ _ _
              (by decide)).1
          | exact (exts3BotFar_consistentOffset _ _ _ _ _ _ _
              (by decide)).1
    · split_ifs <;>
        norm_num <;>
        first
          | exact (exts3BotNear_consistentOffset _ _ _ _ _ _ _
              (by decide)).2
          | exact (exts3BotFar_consistentOffset _ _ _ _ _ _ _
              (by decide)).2
  · -- Tetrahedron at (1,1,1).
    simp only [List.mem_cons, List.not_mem_nil, or_false] at hc
    rcases hc with rfl | rfl | rfl | rfl | rfl | rfl
    · exact ⟨by push_cast; ring, by push_cast; ring, by push_cast; ring⟩
    · exact ⟨by push_cast; ring, by push_cast; ring, by push_cast; ring⟩
    · exact ⟨by push_cast; ring, by push_cast; ring, by push_cast; ring⟩
    · exact ⟨by push_cast; ring, by push_cast; ring, by push_cast; ring⟩
    · split_ifs <;>
        norm_num <;>
        first
          | exact (exts3TopClose_consistentOffset _ _ _ _ _ _ _
              (by decide)).1
          | exact (exts3TopFar_consistentOffset _ _ _ _ _ _ _
              (by decide)).1
    · split_ifs <;>
        norm_num <;>
        first
          | exact (exts3TopClose_consistentOffset _ _ _ _ _ _ _
              (by decide)).2
          | exact (exts3TopFar_consistentOffset _ _ _ _ _ _ _
              (by decide)).2

/-- C4: every candidate vertex contributes exactly
`max(2 - attn, 0)^4 * extrapolate(v, offset)` (the legacy guarded
accumulation included), contributions with `attn ≥ 2` are exactly zero,
the evaluator result is unchanged by the gradient value of any
candidate vertex at squared distance 2 or more, and each candidate's
stored offset — whose square norm is `attn` — is exactly the query
point minus the vertex's position in unskewed space
(`vsv + SQUISH_CONSTANT * Σ vsv` per coordinate), so `attn` is the
squared Euclidean distance from the query point to the vertex in
unskewed space. -/
theorem contribution_kernel_finite_support :
    (∀ (ST SQ NORM : ℝ) (e1 e2 : ℤ → ℤ → ℝ → ℝ → ℝ) (x y : ℝ),
        (∀ c ∈ candidates2 ST SQ x y,
            c.dx * c.dx + c.dy * c.dy < 2 →
            e1 c.xsv c.ysv c.dx c.dy = e2 c.xsv c.ysv c.dx c.dy) →
        eval2With ST SQ NORM e1 x y = eval2With ST SQ NORM e2 x y) ∧
    (∀ (attn e : ℝ), 2 ≤ attn → max (2 - attn) 0 ^ 4 * e = 0) ∧
    (∀ (extrap : ℤ → ℤ → ℤ → ℚ → ℚ → ℚ → ℚ) (x y z : ℚ),
        evalHHWith extrap x y z
          = ((candidates3 x y z).map
              (fun c => max (2 - (c.dx * c.dx + c.dy * c.dy + c.dz * c.dz)) 0 ^ 4
                * extrap c.xsv c.ysv c.zsv c.dx c.dy c.dz)).sum / NORM_CONSTANT_3D) ∧
    (∀ (e1 e2 : ℤ → ℤ → ℤ → ℚ → ℚ → ℚ → ℚ) (x y z : ℚ),
        (∀ c ∈ candidates3 x y z,
            c.dx * c.dx + c.dy * c.dy + c.dz * c.dz < 2 →
            e1 c.xsv c.ysv c.zsv c.dx c.dy c.dz
              = e2 c.xsv c.ysv c.zsv c.dx c.dy c.dz) →
        evalHHWith e1 x y z = evalHHWith e2 x y z) ∧
    (∀ (ST SQ x y : ℝ), ∀ c ∈ candidates2 ST SQ x y,
        c.dx = x - ((c.xsv : ℝ) + ((c.xsv : ℝ) + (c.ysv : ℝ)) * SQ) ∧
        c.dy = y - ((c.ysv : ℝ) + ((c.xsv : ℝ) + (c.ysv : ℝ)) * SQ)) ∧
    (∀ (x y z : ℚ), ∀ c ∈ candidates3 x y z,
        c.dx = x - ((c.xsv : ℚ)
            + ((c.xsv : ℚ) + (c.ysv : ℚ) + (c.zsv : ℚ))
              * SQUISH_CONSTANT_3D) ∧
        c.dy = y - ((c.ysv : ℚ)
            + ((c.xsv : ℚ) + (c.ysv : ℚ) + (c.zsv : ℚ))
              * SQUISH_CONSTANT_3D) ∧
        c.dz = z - ((c.zsv : ℚ)
            + ((c.xsv : ℚ) + (c.ysv : ℚ) + (c.zsv : ℚ))
              * SQUISH_CONSTANT_3D)) := by
  refine ⟨?_, ?_, ?_, ?_, ?_, ?_⟩
  · intro ST SQ NORM e1 e2 x y h
    unfold eval2With
    refine congrArg (· / NORM) ?_
    exact foldl_kernel_congr (fun c : Cand2 ℝ => c.dx * c.dx + c.dy * c.dy)
      (fun c : Cand2 ℝ => e1 c.xsv c.ysv c.dx c.dy)
      (fun c : Cand2 ℝ => e2 c.xsv c.ysv c.dx c.dy)
      (candidates2 ST SQ x y) h 0
  · intro attn e h
    exact kernel_eq_zero_of_two_le h e
  · intro extrap x y z
    rw [evalHHWith_eq_kernel_foldl]
    rw [foldl_add_eq_sum
      (fun c : Cand3 => max (2 - (c.dx * c.dx + c.dy * c.dy + c.dz * c.dz)) 0 ^ 4
        * extrap c.xsv c.ysv c.zsv c.dx c.dy c.dz) (candidates3 x y z) 0]
    rw [zero_add]
  · intro e1 e2 x y z h
    rw [evalHHWith_eq_kernel_foldl, evalHHWith_eq_kernel_foldl]
    refine congrArg (· / NORM_CONSTANT_3D) ?_
    exact foldl_kernel_congr
      (fun c : Cand3 => c.dx * c.dx + c.dy * c.dy + c.dz * c.dz)
      (fun c : Cand3 => e1 c.xsv c.ysv c.zsv c.dx c.dy c.dz)
      (fun c : Cand3 => e2 c.xsv c.ysv c.zsv c.dx c.dy c.dz)
      (candidates3 x y z) h 0
  · intro ST SQ x y c hc
    simp only [candidates2] at hc
    obtain ⟨h1, h2⟩ := cand2Core_consistentOffset SQ _ _ _ _ _ _ c hc
    refine ⟨?_, ?_⟩
    · rw [h1]; push_cast; ring
    · rw [h2]; push_cast; ring
  · intro x y z c hc
    simp only [candidates3] at hc
    obtain ⟨h1, h2, h3⟩ := cand3Core_consistentOffset _ _ _ _ _ _ _ _ _ c hc
    refine ⟨?_, ?_, ?_⟩
    · rw [h1]; push_cast; ring
    · rw [h2]; push_cast; ring
    · rw [h3]; push_cast; ring

/-- Witness for C4: the 2D locality conjunct applied to a pair of equal
gradient terms at the origin. -/
theorem contribution_kernel_finite_support_witness :
    eval2With 0 0 1 (fun _ _ _ _ => (0 : ℝ)) 0 0
      = eval2With 0 0 1 (fun _ _ _ _ => (0 : ℝ)) 0 0 :=
  contribution_kernel_finite_support.1 0 0 1 (fun _ _ _ _ => (0 : ℝ))
    (fun _ _ _ _ => (0 : ℝ)) 0 0 (fun _ _ _ => rfl)

/-- C6: each evaluator returns the kernel-weighted contribution sum
divided, as the final operation, by its dimension-specific
normalization constant: 47 in 2D, 103 in 3D, 30 in 4D. -/
theorem eval_normalizes_by_dimension_constant :
    (∀ (perm : Fin 256 → ℤ) (x y : ℝ),
        Noise2.eval perm x y
          = ((candidates2 STRETCH_CONSTANT_2D SQUISH_CONSTANT_2D x y).map
              (fun c => max (2 - (c.dx * c.dx + c.dy * c.dy)) 0 ^ 4
                * Noise2.extrapolate perm c.xsv c.ysv c.dx c.dy)).sum / 47) ∧
    (∀ (inst : Noise3) (x y z : ℚ),
        inst.eval x y z
          = ((candidates3 x y z).map
              (fun c => max (2 - (c.dx * c.dx + c.dy * c.dy + c.dz * c.dz)) 0 ^ 4
                * inst.extrapolate c.xsv c.ysv c.zsv c.dx c.dy c.dz)).sum / 103) ∧
    (∀ (perm : Fin 256 → ℤ) (x y z w : ℝ),
        Noise4.eval perm x y z w
          = ((candidates4 STRETCH_CONSTANT_4D SQUISH_CONSTANT_4D x y z w).map
              (fun c =>
                max (2 - (c.dx * c.dx + c.dy * c.dy + c.dz * c.dz + c.dw * c.dw))
                  0 ^ 4
                * Noise4.extrapolate perm c.xsv c.ysv c.zsv c.wsv
                    c.dx c.dy c.dz c.dw)).sum / 30) := by
  refine ⟨?_, ?_, ?_⟩
  · intro perm x y
    unfold Noise2.eval eval2With NORM_CONSTANT_2D
    rw [foldl_add_eq_sum
      (fun c : Cand2 ℝ => max (2 - (c.dx * c.dx + c.dy * c.dy)) 0 ^ 4
        * Noise2.extrapolate perm c.xsv c.ysv c.dx c.dy)
      (candidates2 STRETCH_CONSTANT_2D SQUISH_CONSTANT_2D x y) 0]
    rw [zero_add]
  · intro inst x y z
    unfold Noise3.eval eval3With
    rw [foldl_add_eq_sum
      (fun c : Cand3 => max (2 - (c.dx * c.dx + c.dy * c.dy + c.dz * c.dz)) 0 ^ 4
        * inst.extrapolate c.xsv c.ysv c.zsv c.dx c.dy c.dz)
      (candidates3 x y z) 0]
    rw [zero_add]
  · intro perm x y z w
    unfold Noise4.eval eval4With NORM_CONSTANT_4D
    rw [foldl_add_eq_sum
      (fun c : Cand4 ℝ =>
        max (2 - (c.dx * c.dx + c.dy * c.dy + c.dz * c.dz + c.dw * c.dw)) 0 ^ 4
        * Noise4.extrapolate perm c.xsv c.ysv c.zsv c.wsv c.dx c.dy c.dz c.dw)
      (candidates4 STRETCH_CONSTANT_4D SQUISH_CONSTANT_4D x y z w) 0]
    rw [zero_add]

/-- C7: the table-supplied constructors copy the caller's 256 entries
verbatim, perform no validation, and are total: construction succeeds
for every 256-entry table, bijective or not. -/
theorem table_constructor_copies_verbatim :
    (∀ p : Fin 256 → ℤ, NoiseBase.ofTable p = p) ∧
    (∀ (p : Fin 256 → ℤ) (i : Fin 256), (Noise3.ofTable p).perm i = p i) ∧
    (∀ (p : Fin 256 → ℤ) (i : Fin 256), (OpenSimplexNoise.ofTable p).perm i = p i) :=
  ⟨fun _ => rfl, fun _ _ => rfl, fun _ _ => rfl⟩

/-- Counterexample to C8 as stated: a caller-supplied table holding `-1`
everywhere makes the 3D gradient-array index negative
(`(-1 % 24) * 3 = -3` with C's truncated `%`), an out-of-bounds access
into the 72-entry gradient array. -/
theorem negative_table_gradIndex_out_of_bounds :
    ¬ (0 ≤ (Noise3.ofTable (fun _ => -1)).gradIndex 0 0 0 ∧
        (Noise3.ofTable (fun _ => -1)).gradIndex 0 0 0 + 2 < 72) := by
  decide

/-- C8 (amended): with every supplied entry non-negative, all
gradient-array indices of 3D extrapolation stay within `[0, 72)`; the
2D and 4D indices are in bounds for every table, and each `perm` /
`permGradIndex` access is forced in range by the `& 0xFF` mask. -/
theorem accesses_in_bounds_of_nonneg_table :
    (∀ (p : Fin 256 → ℤ), (∀ i, 0 ≤ p i) → ∀ xsb ysb zsb : ℤ,
        0 ≤ (Noise3.ofTable p).gradIndex xsb ysb zsb ∧
          (Noise3.ofTable p).gradIndex xsb ysb zsb + 2 < 72) ∧
    (∀ (p : Fin 256 → ℤ), (∀ i, 0 ≤ p i) → ∀ xsb ysb zsb : ℤ,
        0 ≤ (OpenSimplexNoise.ofTable p).gradIndex xsb ysb zsb ∧
          (OpenSimplexNoise.ofTable p).gradIndex xsb ysb zsb + 2 < 72) ∧
    (∀ (perm : Fin 256 → ℤ) (xsb ysb : ℤ),
        Noise2.gradIndex perm xsb ysb + 1 < 16) ∧
    (∀ (perm : Fin 256 → ℤ) (xsb ysb zsb wsb : ℤ),
        Noise4.gradIndex perm xsb ysb zsb wsb + 3 < 256) := by
  refine ⟨?_, ?_, ?_, ?_⟩
  · intro p hp xsb ysb zsb
    dsimp only [Noise3.gradIndex, Noise3.ofTable]
    have h0 := Int.tmod_nonneg (a := p (mask255 (p (mask255 (p (mask255 xsb)
      + ysb)) + zsb))) 24 (hp _)
    have h24 := Int.tmod_lt_of_pos
      (p (mask255 (p (mask255 (p (mask255 xsb) + ysb)) + zsb)))
      (show (0 : ℤ) < 24 by norm_num)
    constructor
    · omega
    · omega
  · intro p hp xsb ysb zsb
    dsimp only [OpenSimplexNoise.gradIndex, OpenSimplexNoise.ofTable]
    have h0 := Int.tmod_nonneg (a := p (mask255 (p (mask255 (p (mask255 xsb)
      + ysb)) + zsb))) 24 (hp _)
    have h24 := Int.tmod_lt_of_pos
      (p (mask255 (p (mask255 (p (mask255 xsb) + ysb)) + zsb)))
      (show (0 : ℤ) < 24 by norm_num)
    constructor
    · omega
    · omega
  · intro perm xsb ysb
    unfold Noise2.gradIndex
    have h := Nat.and_le_right
      (n := (mask255 (perm (mask255 (perm (mask255 xsb) + ysb)))).val) (m := 0x0E)
    omega
  · intro perm xsb ysb zsb wsb
    unfold Noise4.gradIndex
    have h := Nat.and_le_right
      (n := (mask255 (perm (mask255 (perm (mask255 (perm (mask255 (perm
        (mask255 xsb) + ysb)) + zsb)) + wsb)))).val) (m := 0xFC)
    omega

/-- Witness for the amended C8: the all-zero table at the origin. -/
theorem accesses_in_bounds_of_nonneg_table_witness :
    0 ≤ (Noise3.ofTable (fun _ => 0)).gradIndex 0 0 0 ∧
      (Noise3.ofTable (fun _ => 0)).gradIndex 0 0 0 + 2 < 72 :=
  accesses_in_bounds_of_nonneg_table.1 (fun _ => 0) (fun _ => le_refl 0) 0 0 0

/-- C9: two instances built from the same seed return identical results
at every point, and the 3D evaluator's output is a pure function of the
table contents: instances agreeing on `perm` and `permGradIndex` agree
on every evaluation, and `permGradIndex` is itself derived from `perm`
by both constructors. -/
theorem eval_pure_function_of_table :
    (∀ (s : ℤ) (a b : Noise3), a = Noise3.ofSeed s → b = Noise3.ofSeed s →
        ∀ x y z : ℚ, a.eval x y z = b.eval x y z) ∧
    (∀ (a b : Noise3), a.perm = b.perm → a.permGradIndex = b.permGradIndex →
        ∀ x y z : ℚ, a.eval x y z = b.eval x y z) ∧
    (∀ (s : ℤ) (i : Fin 256),
        (Noise3.ofSeed s).permGradIndex i
          = Int.tmod ((Noise3.ofSeed s).perm i) 24 * 3) ∧
    (∀ (p : Fin 256 → ℤ) (i : Fin 256),
        (Noise3.ofTable p).permGradIndex i
          = Int.tmod ((Noise3.ofTable p).perm i) 24 * 3) := by
  refine ⟨?_, ?_, fun _ _ => rfl, fun _ _ => rfl⟩
  · intro s a b ha hb x y z
    rw [ha, hb]
  · intro a b hperm hgrad x y z
    obtain ⟨pa, ga⟩ := a
    obtain ⟨pb, gb⟩ := b
    simp only at hperm hgrad
    rw [hperm, hgrad]

/-- Witness for C9: two copies of the seed-0 instance at the origin. -/
theorem eval_pure_function_of_table_witness :
    (Noise3.ofSeed 0).eval 0 0 0 = (Noise3.ofSeed 0).eval 0 0 0 :=
  eval_pure_function_of_table.1 0 (Noise3.ofSeed 0) (Noise3.ofSeed 0)
    rfl rfl 0 0 0

/-- C10: for every table, `extrapolate` is 256-periodic in each integer
lattice coordinate separately: adding `256 * k` to one coordinate
leaves the returned dot product unchanged in every dimension. -/
theorem extrapolate_periodic_mod256 :
    (∀ (perm : Fin 256 → ℤ) (xsb ysb k : ℤ) (dx dy : ℚ),
        Noise2.extrapolate perm (xsb + 256 * k) ysb dx dy
            = Noise2.extrapolate perm xsb ysb dx dy ∧
          Noise2.extrapolate perm xsb (ysb + 256 * k) dx dy
            = Noise2.extrapolate perm xsb ysb dx dy) ∧
    (∀ (inst : Noise3) (xsb ysb zsb k : ℤ) (dx dy dz : ℚ),
        inst.extrapolate (xsb + 256 * k) ysb zsb dx dy dz
            = inst.extrapolate xsb ysb zsb dx dy dz ∧
          inst.extrapolate xsb (ysb + 256 * k) zsb dx dy dz
            = inst.extrapolate xsb ysb zsb dx dy dz ∧
          inst.extrapolate xsb ysb (zsb + 256 * k) dx dy dz
            = inst.extrapolate xsb ysb zsb dx dy dz) ∧
    (∀ (perm : Fin 256 → ℤ) (xsb ysb zsb wsb k : ℤ) (dx dy dz dw : ℚ),
        Noise4.extrapolate perm (xsb + 256 * k) ysb zsb wsb dx dy dz dw
            = Noise4.extrapolate perm xsb ysb zsb wsb dx dy dz dw ∧
          Noise4.extrapolate perm xsb (ysb + 256 * k) zsb wsb dx dy dz dw
            = Noise4.extrapolate perm xsb ysb zsb wsb dx dy dz dw ∧
          Noise4.extrapolate perm xsb ysb (zsb + 256 * k) wsb dx dy dz dw
            = Noise4.extrapolate perm xsb ysb zsb wsb dx dy dz dw ∧
          Noise4.extrapolate perm xsb ysb zsb (wsb + 256 * k) dx dy dz dw
            = Noise4.extrapolate perm xsb ysb zsb wsb dx dy dz dw) := by
  refine ⟨?_, ?_, ?_⟩
  · intro perm xsb ysb k dx dy
    constructor
    · simp only [Noise2.extrapolate, Noise2.gradIndex, mask255_add_mul]
    · simp only [Noise2.extrapolate, Noise2.gradIndex, mask255_add_right]
  · intro inst xsb ysb zsb k dx dy dz
    refine ⟨?_, ?_, ?_⟩
    · simp only [Noise3.extrapolate, Noise3.gradIndex, mask255_add_mul]
    · simp only [Noise3.extrapolate, Noise3.gradIndex, mask255_add_right]
    · simp only [Noise3.extrapolate, Noise3.gradIndex, mask255_add_right]
  · intro perm xsb ysb zsb wsb k dx dy dz dw
    refine ⟨?_, ?_, ?_, ?_⟩
    · simp only [Noise4.extrapolate, Noise4.gradIndex, mask255_add_mul]
    · simp only [Noise4.extrapolate, Noise4.gradIndex, mask255_add_right]
    · simp only [Noise4.extrapolate, Noise4.gradIndex, mask255_add_right]
    · simp only [Noise4.extrapolate, Noise4.gradIndex, mask255_add_right]

end OSN
